import Mathlib

/-!
# Pulse915 dashboard: chart annotation engine

Shallow embedding of `frontend/src/components/shared/ChartModal.jsx`
(the temporal aligner `findClosestCandle` and the load cycle `loadData`) and of
`frontend/src/components/shared/TradingChart.jsx` (the chart effect, its
cleanup and the resize handler), of the class selection of
`frontend/src/components/shared/StatusBadge.jsx` and of the chart button of
`frontend/src/pages/BacktestPage.jsx`.

Conventions of the embedding:

* timestamps are integers (`Int`, epoch seconds);
* prices are JSON numbers; the code only copies them and tests them for
  truthiness (a number is falsy exactly when it is zero), so they are embedded
  as rationals `ℚ`;
* an optional field of a JSON object is an `Option`; `none` is an absent
  (`undefined`/`null`) field;
* JavaScript's `Infinity` in the running minimum of the scan is `none` in an
  `Option Nat`;
* the identity of a chart object or of a resize handler is the number of the
  effect run that created it.
-/

namespace Pulse915

/-- One OHLC price sample. -/
structure Candle where
  time : Int
  openPrice : ℚ
  high : ℚ
  low : ℚ
  close : ℚ
deriving DecidableEq

/-- Loop variables of `findClosestCandle`: `closest` (initially `null`) and
`minDiff` (initially `Infinity`, here `none`). -/
structure Scan where
  closest : Option Candle
  minDiff : Option Nat
deriving DecidableEq

/-- The test `diff < minDiff`, with `none` standing for `Infinity`. -/
def ltMinDiff (diff : Nat) : Option Nat → Bool
  | none => true
  | some m => decide (diff < m)

/-- The test `minDiff > k`, with `none` standing for `Infinity`. -/
def minDiffGt (k : Nat) : Option Nat → Bool
  | none => true
  | some m => decide (m > k)

/-- Body of the `for (const c of candles)` loop of `findClosestCandle`. -/
def scanStep (targetTs : Int) (s : Scan) (c : Candle) : Scan :=
  let diff := (c.time - targetTs).natAbs
  if ltMinDiff diff s.minDiff then { closest := some c, minDiff := some diff } else s

/-- The aligner `findClosestCandle(candles, targetTs)` of `ChartModal.jsx`.
An absent `candles` argument is `none`. -/
def findClosestCandle (candles : Option (List Candle)) (targetTs : Int) : Option Candle :=
  match candles with
  | none => none
  | some [] => none
  | some (c :: cs) =>
    let s := (c :: cs).foldl (scanStep targetTs) { closest := none, minDiff := none }
    if minDiffGt 300 s.minDiff then none else s.closest

/-! ## Overlay data of `ChartModal.jsx` -/

/-- One point `{time, value}` of a trailing-stop path. -/
structure Point where
  time : Int
  value : ℚ
deriving DecidableEq

/-- A trade record of the backtest chart feed. Every field the code tests for
presence is optional. -/
structure Trade where
  symbol : String
  entry_ts : Option Int
  entry_price : Option ℚ
  exit_ts : Option Int
  exit_price : Option ℚ
  stop_loss : Option ℚ
  target : Option ℚ
  trailing_stop_line : Option (List Point)
  candles : Option (List Candle)
deriving DecidableEq

/-- The template literal that renders `literal` followed by the JavaScript
string conversion of `value` (of `undefined` when the value is absent). -/
structure TemplateText where
  literal : String
  value : Option ℚ
deriving DecidableEq

/-- A marker object pushed onto `markers` by `loadData`. -/
structure Marker where
  time : Int
  position : String
  color : String
  shape : String
  text : TemplateText
deriving DecidableEq

/-- A line object pushed onto `lines` by `loadData`, tagged by its `type` field:
`price` is `type: 'price'` and `series` is `type: 'series'`. -/
inductive LineOverlay where
  | price (price : ℚ) (color : String) (title : String)
  | series (data : List Point) (color : String)
deriving DecidableEq

/-- The `chartData` state of the modal. -/
structure ChartData where
  candles : Option (List Candle)
  markers : List Marker
  lines : List LineOverlay
deriving DecidableEq

/-- The three `useState` cells of `ChartModal`. -/
structure ModalState where
  loading : Bool
  chartData : ChartData
  error : Option String
deriving DecidableEq

/-- State of a freshly mounted modal (the `useState` initial values). -/
def initialState : ModalState :=
  { loading := true, chartData := { candles := some [], markers := [], lines := [] },
    error := none }

/-- JavaScript truthiness of an optional number: an absent field and zero are
falsy, every other number is truthy. -/
def truthyNum {α : Type} [Zero α] [DecidableEq α] : Option α → Bool
  | none => false
  | some v => decide (v ≠ 0)

/-- JavaScript truthiness of a string: the empty string is falsy. -/
def truthyStr (s : String) : Bool := decide (s ≠ "")

/-- The block `// Entry Marker` of `loadData`: what it pushes onto `markers`. -/
def entryMarkers (trade : Trade) : List Marker :=
  match trade.entry_ts with
  | none => []
  | some entry_ts =>
    if truthyNum (some entry_ts) then
      match findClosestCandle trade.candles entry_ts with
      | some entryCandle =>
        [{ time := entryCandle.time, position := "belowBar", color := "#2196F3",
           shape := "arrowUp",
           text := { literal := "Entry @ ", value := trade.entry_price } }]
      | none => []
    else []

/-- The block `// Exit Marker` of `loadData`: what it pushes onto `markers`. -/
def exitMarkers (trade : Trade) : List Marker :=
  match trade.exit_ts with
  | none => []
  | some exit_ts =>
    if truthyNum (some exit_ts) then
      match findClosestCandle trade.candles exit_ts with
      | some exitCandle =>
        [{ time := exitCandle.time, position := "aboveBar", color := "#FF9800",
           shape := "arrowDown",
           text := { literal := "Exit @ ", value := trade.exit_price } }]
      | none => []
    else []

/-- The `markers` array built by `loadData` for a trade. -/
def buildMarkers (trade : Trade) : List Marker :=
  entryMarkers trade ++ exitMarkers trade

/-- The `lines` array built by `loadData` for a trade. -/
def buildLines (trade : Trade) : List LineOverlay :=
  (match trade.stop_loss with
    | some stop_loss =>
      if truthyNum (some stop_loss) then [LineOverlay.price stop_loss "#ef5350" "SL"] else []
    | none => []) ++
  (match trade.target with
    | some target =>
      if truthyNum (some target) then [LineOverlay.price target "#26a69a" "TP"] else []
    | none => []) ++
  (match trade.trailing_stop_line with
    | some trailing_stop_line =>
      [LineOverlay.series trailing_stop_line "rgba(255, 12, 12, 0.8)"]
    | none => [])

/-- The object passed to `setChartData` in the `if (trade)` branch. -/
def buildChartData (trade : Trade) : ChartData :=
  { candles := trade.candles, markers := buildMarkers trade, lines := buildLines trade }

/-! ## The load cycle -/

/-- Outcome of an awaited API call: the promise rejects with an error whose
message is `msg`, or resolves with the parsed response. -/
inductive Fetched (α : Type) where
  | rejected (msg : String)
  | resolved (data : α)
deriving DecidableEq

/-- Response of `api.getLiveChart(symbol)`: an object with optional fields
`error` and `candles`. -/
structure LiveChart where
  error : Option String
  candles : Option (List Candle)
deriving DecidableEq

/-- The trade lookup of the backtest branch. `tradeData` is the prop (`none` is
`null`); `allData` is the outcome of `api.getBacktestChart()`, `none` inside it
being a response that is not an array. The fetch is only awaited when no trade
was passed and `symbol` is truthy. -/
def lookupTrade (symbol : String) (tradeData : Option Trade)
    (allData : Fetched (Option (List Trade))) : Except String (Option Trade) :=
  match tradeData with
  | some trade => Except.ok (some trade)
  | none =>
    if truthyStr symbol then
      match allData with
      | Fetched.rejected msg => Except.error msg
      | Fetched.resolved none => Except.ok none
      | Fetched.resolved (some trades) =>
        Except.ok (trades.find? (fun t => decide (t.symbol = symbol)))
    else Except.ok none

/-- The `try` block of `loadData`. The result is the thrown error's message, or
the argument of the `setChartData` call (`none` when the block makes no such
call). -/
def loadBody (symbol : String) (mode : String) (tradeData : Option Trade)
    (live : Fetched LiveChart) (allData : Fetched (Option (List Trade))) :
    Except String (Option ChartData) :=
  if mode = "live" then
    match live with
    | Fetched.rejected msg => Except.error msg
    | Fetched.resolved data =>
      match data.error with
      | some err =>
        if truthyStr err then Except.error err
        else Except.ok (some { candles := data.candles, markers := [], lines := [] })
      | none => Except.ok (some { candles := data.candles, markers := [], lines := [] })
  else if mode = "backtest" then
    match lookupTrade symbol tradeData allData with
    | Except.error msg => Except.error msg
    | Except.ok (some trade) => Except.ok (some (buildChartData trade))
    | Except.ok none => Except.error "Trade data not found for visualization"
  else Except.ok none

/-- Start of `loadData`: `setLoading(true); setError(null)`. -/
def loadBegin (st : ModalState) : ModalState :=
  { st with loading := true, error := none }

/-- Effect of the `try`/`catch` on the state: `setChartData` on success,
`setError(e.message)` in the `catch`. -/
def applyOutcome (r : Except String (Option ChartData)) (st : ModalState) : ModalState :=
  match r with
  | Except.ok (some cd) => { st with chartData := cd }
  | Except.ok none => st
  | Except.error msg => { st with error := some msg }

/-- The `finally` block: `setLoading(false)`. -/
def loadEnd (st : ModalState) : ModalState :=
  { st with loading := false }

/-- One load cycle `loadData()` run on its own, for the props `symbol`, `mode`,
`tradeData` and the outcomes of the two API calls it may await. -/
def loadData (symbol : String) (mode : String) (tradeData : Option Trade)
    (live : Fetched LiveChart) (allData : Fetched (Option (List Trade)))
    (st : ModalState) : ModalState :=
  loadEnd (applyOutcome (loadBody symbol mode tradeData live allData) (loadBegin st))

/-! ## Concrete trade records used as examples -/

/-- A trade whose entry timestamp is the epoch itself, with a candle at that time. -/
def zeroEntryTrade : Trade :=
  { symbol := "ABC", entry_ts := some 0, entry_price := some 5, exit_ts := none,
    exit_price := none, stop_loss := none, target := none, trailing_stop_line := none,
    candles := some [⟨0, 1, 1, 1, 1⟩] }

/-- Scenario A of the specification: one candle at time 100, entry at 100, no exit. -/
def scenarioA : Trade :=
  { symbol := "ABC", entry_ts := some 100, entry_price := some 5, exit_ts := none,
    exit_price := none, stop_loss := none, target := none, trailing_stop_line := none,
    candles := some [⟨100, 1, 1, 1, 1⟩] }

/-- Scenario B of the specification: one candle at time 100, entry at 1000, no exit. -/
def scenarioB : Trade :=
  { symbol := "ABC", entry_ts := some 1000, entry_price := some 5, exit_ts := none,
    exit_price := none, stop_loss := some 90, target := none, trailing_stop_line := none,
    candles := some [⟨100, 1, 1, 1, 1⟩] }

/-- Scenario C of the specification: stop-loss 90 and target 110, nothing else. -/
def scenarioC : Trade :=
  { symbol := "ABC", entry_ts := none, entry_price := none, exit_ts := none,
    exit_price := none, stop_loss := some 90, target := some 110,
    trailing_stop_line := none, candles := some [⟨100, 1, 1, 1, 1⟩] }

/-- A trade whose stop-loss is present with value zero. -/
def zeroStopTrade : Trade :=
  { symbol := "ABC", entry_ts := none, entry_price := none, exit_ts := none,
    exit_price := none, stop_loss := some 0, target := some 110,
    trailing_stop_line := none, candles := some [⟨100, 1, 1, 1, 1⟩] }

/-- A trade whose trailing-stop path is present and empty. -/
def emptyTrailTrade : Trade :=
  { symbol := "ABC", entry_ts := none, entry_price := none, exit_ts := none,
    exit_price := none, stop_loss := none, target := none,
    trailing_stop_line := some [], candles := some [⟨100, 1, 1, 1, 1⟩] }

/-- A trade with a two-point trailing-stop path. -/
def trailTrade : Trade :=
  { symbol := "ABC", entry_ts := none, entry_price := none, exit_ts := none,
    exit_price := none, stop_loss := none, target := none,
    trailing_stop_line := some [⟨100, 95⟩, ⟨160, 96⟩], candles := some [⟨100, 1, 1, 1, 1⟩] }

/-- The test `line.type === 'price'`. -/
def LineOverlay.isPrice : LineOverlay → Bool
  | LineOverlay.price _ _ _ => true
  | LineOverlay.series _ _ => false

/-- The test `line.type === 'series'`. -/
def LineOverlay.isSeries : LineOverlay → Bool
  | LineOverlay.price _ _ _ => false
  | LineOverlay.series _ _ => true

/-! ## What the modal shows, and which API call a cycle makes -/

/-- The condition `!loading && !error` under which `ChartModal` renders
`TradingChart`; an error string is falsy when it is empty. -/
def rendersChart (st : ModalState) : Bool :=
  !st.loading && !(match st.error with
    | some e => truthyStr e
    | none => false)

/-- The condition `!trade && symbol` under which the backtest branch awaits
`api.getBacktestChart()`. -/
def fetchesBacktestChart (symbol : String) (tradeData : Option Trade) : Bool :=
  tradeData.isNone && truthyStr symbol

/-! ## The chart session of `TradingChart.jsx`

The charting library is used through `createChart`, `addCandlestickSeries`,
`setData`, `setMarkers`, `createPriceLine`, `addLineSeries`, `fitContent` and
`remove`. A chart is the record of what these calls have put on it; constant
styling options of `createChart` and `addCandlestickSeries` are left out. -/

/-- The `height` prop: a number of pixels (default `500`) or a CSS length such
as `100%`. -/
inductive Height where
  | px (n : Nat)
  | css (s : String)
deriving DecidableEq

/-- The options object passed to `candlestickSeries.createPriceLine`. -/
structure PriceLineOptions where
  price : ℚ
  color : String
  lineWidth : Nat
  lineStyle : Nat
  axisLabelVisible : Bool
  title : String
deriving DecidableEq

/-- A line series: the options passed to `chart.addLineSeries` and the points
passed to its `setData`. -/
structure LineSeries where
  color : String
  lineWidth : Nat
  lineStyle : Nat
  lastValueVisible : Bool
  priceLineVisible : Bool
  data : List Point
deriving DecidableEq

/-- A candlestick series: its candles (`setData`), its marker batch
(`setMarkers`) and the price lines created on it. -/
structure CandlestickSeries where
  data : List Candle
  markers : List Marker
  priceLines : List PriceLineOptions
deriving DecidableEq

/-- A chart made by `createChart`. `id` is the identity of the chart object;
`fitContent` records the call `chart.timeScale().fitContent()`. -/
structure Chart where
  id : Nat
  width : Int
  height : Height
  candlestickSeries : List CandlestickSeries
  lineSeries : List LineSeries
  fitContent : Bool
deriving DecidableEq

/-- A chart with its identity forgotten: what is drawn. -/
def Chart.content (c : Chart) : Chart := { c with id := 0 }

/-- What one `TradingChart` instance owns and touches: the container `div`
behind `chartContainerRef` (its `clientWidth`, `none` while the ref is empty),
`chartRef.current` (the identity of a chart), the charts that were created and
not removed, the `resize` listeners registered on `window` (named by the effect
run that added them), and the number of effect runs that created a chart, from
which fresh identities are drawn. -/
structure Session where
  container : Option Int
  chartRef : Option Nat
  charts : List Chart
  listeners : List Nat
  runs : Nat
deriving DecidableEq

/-- A session before its first effect run. -/
def Session.initial (container : Option Int) : Session :=
  { container := container, chartRef := none, charts := [], listeners := [], runs := 0 }

/-- Identities in use are older than the next fresh one. -/
def Session.wf (s : Session) : Bool :=
  s.charts.all (fun c => decide (c.id < s.runs)) &&
  s.listeners.all (fun h => decide (h < s.runs))

/-- The chart `chartRef.current` refers to, if it is still alive. -/
def Session.current (s : Session) : Option Chart :=
  match s.chartRef with
  | some k => s.charts.find? (fun c => decide (c.id = k))
  | none => none

/-- Body of `lines.forEach(line => ...)`: a price line is created on the
candlestick series, a series line becomes a new line series. The line objects
carry no `lineWidth`, so `line.lineWidth || 2` is `2`. -/
def renderLine (acc : CandlestickSeries × List LineSeries) :
    LineOverlay → CandlestickSeries × List LineSeries
  | LineOverlay.price price color title =>
    ({ acc.1 with priceLines := acc.1.priceLines ++
        [{ price := price, color := color, lineWidth := 1, lineStyle := 1,
           axisLabelVisible := true, title := title }] }, acc.2)
  | LineOverlay.series data color =>
    (acc.1, acc.2 ++
      [{ color := if truthyStr color then color else "#4A9EFF", lineWidth := 2,
         lineStyle := 0, lastValueVisible := false, priceLineVisible := false,
         data := data }])

/-- The chart the effect builds: `createChart`, one `addCandlestickSeries`,
`setData` and `setMarkers` when their argument is not empty, the lines, and
`fitContent`. `data` is the `data` prop (`none` when `undefined`). -/
def buildChart (id : Nat) (clientWidth : Int) (data : Option (List Candle))
    (markers : List Marker) (lines : List LineOverlay) (height : Height) : Chart :=
  let series0 : CandlestickSeries := { data := [], markers := [], priceLines := [] }
  let series1 : CandlestickSeries :=
    match data with
    | some (c :: cs) => { series0 with data := c :: cs }
    | _ => series0
  let series2 : CandlestickSeries :=
    if markers.length > 0 then { series1 with markers := markers } else series1
  let drawn : CandlestickSeries × List LineSeries :=
    if lines.length > 0 then lines.foldl renderLine (series2, []) else (series2, [])
  { id := id, width := clientWidth, height := height,
    candlestickSeries := [drawn.1], lineSeries := drawn.2, fitContent := true }

/-- One run of the `useEffect` callback. It returns the new session and the
identity of the cleanup it returned (`none` when it returned early, the
container ref being empty). -/
def chartEffect (data : Option (List Candle)) (markers : List Marker)
    (lines : List LineOverlay) (height : Height) (s : Session) : Session × Option Nat :=
  match s.container with
  | none => (s, none)
  | some clientWidth =>
    let kept : List Chart :=
      match s.chartRef with
      | some k => s.charts.filter (fun c => decide (c.id ≠ k))
      | none => s.charts
    let chart := buildChart s.runs clientWidth data markers lines height
    ({ container := s.container, chartRef := some s.runs, charts := kept ++ [chart],
       listeners := s.listeners ++ [s.runs], runs := s.runs + 1 }, some s.runs)

/-- The cleanup returned by the effect run `run`: it removes that run's resize
listener and, if `chartRef.current` is set, removes the chart and clears the
ref. -/
def chartCleanup (run : Nat) (s : Session) : Session :=
  let listeners := s.listeners.filter (fun h => decide (h ≠ run))
  match s.chartRef with
  | some k =>
    { s with listeners := listeners, charts := s.charts.filter (fun c => decide (c.id ≠ k)),
             chartRef := none }
  | none => { s with listeners := listeners }

/-- React re-running the effect when a dependency changed: the cleanup of the
previous run, if that run returned one, and then the effect. -/
def chartReload (data : Option (List Candle)) (markers : List Marker)
    (lines : List LineOverlay) (height : Height) (p : Session × Option Nat) :
    Session × Option Nat :=
  chartEffect data markers lines height
    (match p.2 with
      | some run => chartCleanup run p.1
      | none => p.1)

/-- A trade list with two trades of the same symbol. -/
def twoTradesSameSymbol : List Trade :=
  [{ scenarioC with symbol := "XYZ" }, scenarioA, scenarioB]

/-- The line series `renderLine` creates for a line object, if any. -/
def LineOverlay.lineSeries? : LineOverlay → Option LineSeries
  | LineOverlay.price _ _ _ => none
  | LineOverlay.series d c =>
    some { color := if truthyStr c then c else "#4A9EFF", lineWidth := 2,
           lineStyle := 0, lastValueVisible := false, priceLineVisible := false,
           data := d }

/-- The price line `renderLine` creates for a line object, if any. -/
def LineOverlay.priceLine? : LineOverlay → Option PriceLineOptions
  | LineOverlay.price p c t =>
    some { price := p, color := c, lineWidth := 1, lineStyle := 1,
           axisLabelVisible := true, title := t }
  | LineOverlay.series _ _ => none

/-- A trade whose entry is out of tolerance and whose exit aligns. -/
def exitOnlyTrade : Trade :=
  { symbol := "ABC", entry_ts := some 1000, entry_price := some 5, exit_ts := some 130,
    exit_price := some 6, stop_loss := none, target := none, trailing_stop_line := none,
    candles := some [⟨100, 1, 1, 1, 1⟩] }

/-- The `handleResize` listener: when both refs are set, the chart in use gets
the container's current `clientWidth` through `applyOptions`. -/
def handleResize (s : Session) : Session :=
  match s.container, s.chartRef with
  | some clientWidth, some k =>
    { s with charts :=
        List.map (fun c => if c.id = k then { c with width := clientWidth } else c) s.charts }
  | _, _ => s

/-- What happens to a mounted `TradingChart`: a dependency of the effect changes
(React runs the previous cleanup and then the effect with the new props), or
the component unmounts (React runs the last cleanup). -/
inductive SessionStep where
  | load (data : Option (List Candle)) (markers : List Marker) (lines : List LineOverlay)
      (height : Height)
  | dispose
deriving DecidableEq

/-- One step of a session; the second component is the cleanup React holds. -/
def sessionStep (p : Session × Option Nat) : SessionStep → Session × Option Nat
  | SessionStep.load data markers lines height => chartReload data markers lines height p
  | SessionStep.dispose =>
    (match p.2 with
      | some run => chartCleanup run p.1
      | none => p.1, none)

/-- A session run from mount through a sequence of steps. -/
def runSession (container : Option Int) (steps : List SessionStep) : Session × Option Nat :=
  steps.foldl sessionStep (Session.initial container, none)

/-- The arguments of the `candlestickSeries.setMarkers` calls one effect run
makes: one call carrying the whole list when it is not empty, none otherwise. -/
def setMarkersCalls (markers : List Marker) : List (List Marker) :=
  if markers.length > 0 then [markers] else []

/-- A session after one effect run on the chart data of Scenario A, in a
container 800 pixels wide. -/
def loadedSession : Session :=
  (chartEffect scenarioA.candles (buildMarkers scenarioA) (buildLines scenarioA)
    (Height.css "100%") (Session.initial (some 800))).1

/-! ## Calls and cycles around the aligner and the load cycle -/

/-- A call `findClosestCandle(candles, targetTs, toleranceSeconds)`: the function
declares two parameters, so a third argument is dropped. -/
def alignWithTolerance (candles : Option (List Candle)) (targetTs : Int)
    (_toleranceSeconds : Int) : Option Candle :=
  findClosestCandle candles targetTs

/-- The part of `loadData` that runs once its awaited call has settled, with the
outcome of the `try` block: `setChartData` or `setError`, then
`setLoading(false)`. -/
def loadSettle (r : Except String (Option ChartData)) (st : ModalState) : ModalState :=
  loadEnd (applyOutcome r st)

/-- Two load cycles started one after the other before either settles, and then
settling in the order `first`, `second`. -/
def overlappingLoads (first second : Except String (Option ChartData)) (st : ModalState) :
    ModalState :=
  loadSettle second (loadSettle first (loadBegin (loadBegin st)))

/-- The API calls one load cycle makes. -/
def apiCalls (symbol : String) (mode : String) (tradeData : Option Trade) : List String :=
  if mode = "live" then ["getLiveChart"]
  else if mode = "backtest" then
    (if fetchesBacktestChart symbol tradeData then ["getBacktestChart"] else [])
  else []

/-! ## `StatusBadge.jsx` -/

/-- The CSS class computed by `StatusBadge({ status, type = 'info', label })`.
`toUpperCase` is JavaScript's `String.prototype.toUpperCase`; an absent prop is
`none`. -/
def statusBadgeClass (toUpperCase : String → String) (status : String)
    (type : Option String) (label : Option String) : String :=
  let labelTruthy : Bool :=
    match label with
    | some l => truthyStr l
    | none => false
  if !labelTruthy then
    let s := toUpperCase status
    if s ∈ ["PROFIT", "WIN", "ONLINE", "ACTIVE", "FILLED", "COMPLETE"] then "status-success"
    else if s ∈ ["LOSS", "OFFLINE", "ERROR", "FAILED", "REJECTED"] then "status-danger"
    else if s ∈ ["PENDING", "WARNING", "CONNECTING", "OPEN"] then "status-warning"
    else "status-info"
  else
    let t := type.getD "info"
    let c1 := if t = "success" then "status-success" else "status-info"
    let c2 := if t = "danger" then "status-danger" else c1
    if t = "warning" then "status-warning" else c2

/-! ## The trade table of `BacktestPage.jsx` -/

/-- A row of the trade log shown by `BacktestPage`. -/
structure TradeRow where
  Stock : Option String
  Symbol : Option String
  Date : Option String
deriving DecidableEq

/-- The expression `trade.Stock || trade.Symbol`. -/
def rowKey (t : TradeRow) : Option String :=
  match t.Stock with
  | some s => if truthyStr s then some s else t.Symbol
  | none => t.Symbol

/-- The state cells of `BacktestPage` the chart button and the modal use. -/
structure BacktestPageState where
  trades : List TradeRow
  selectedSymbol : Option String
deriving DecidableEq

/-- The `onClick` of a row's chart button:
`setSelectedSymbol(trade.Stock || trade.Symbol)`. -/
def clickChart (trade : TradeRow) (st : BacktestPageState) : BacktestPageState :=
  { st with selectedSymbol := rowKey trade }

/-- The props `BacktestPage` passes to `ChartModal`. -/
structure ChartModalProps where
  symbol : String
  mode : String
  tradeData : Option TradeRow
deriving DecidableEq

/-- The element `selectedSymbol && <ChartModal ... />`: the props of the modal
when it is rendered. -/
def chartModal (st : BacktestPageState) : Option ChartModalProps :=
  match st.selectedSymbol with
  | some selectedSymbol =>
    if truthyStr selectedSymbol then
      some { symbol := selectedSymbol, mode := "backtest",
             tradeData := st.trades.find? (fun t => decide (rowKey t = some selectedSymbol)) }
    else none
  | none => none

/-- A trade log in which two rows share the key `INFY`. -/
def sampleRows : List TradeRow :=
  [{ Stock := some "TCS", Symbol := none, Date := some "2024-01-02" },
   { Stock := some "", Symbol := some "INFY", Date := some "2024-01-03" },
   { Stock := some "INFY", Symbol := none, Date := some "2024-01-04" }]

/-! ## The scan -/

/-- What the loop of `findClosestCandle` has computed after a whole list: nothing
on the empty list, otherwise the first candle at the least distance. -/
theorem scan_spec (ts : Int) (l : List Candle) :
    (l = [] ∧ l.foldl (scanStep ts) { closest := none, minDiff := none }
        = { closest := none, minDiff := none }) ∨
    ∃ pre c post, l = pre ++ c :: post ∧
      l.foldl (scanStep ts) { closest := none, minDiff := none }
        = { closest := some c, minDiff := some (c.time - ts).natAbs } ∧
      (∀ x ∈ pre, (c.time - ts).natAbs < (x.time - ts).natAbs) ∧
      (∀ x ∈ post, (c.time - ts).natAbs ≤ (x.time - ts).natAbs) := by
  induction l using List.reverseRecOn with
  | nil => exact Or.inl ⟨rfl, rfl⟩
  | append_singleton l a ih =>
    right
    rw [List.foldl_append]
    rcases ih with ⟨hl, hs⟩ | ⟨pre, c, post, hl, hs, hpre, hpost⟩
    · subst hl
      refine ⟨[], a, [], rfl, ?_, by simp, by simp⟩
      simp [scanStep, ltMinDiff]
    · rw [hs]
      by_cases h : (a.time - ts).natAbs < (c.time - ts).natAbs
      · refine ⟨l, a, [], rfl, ?_, ?_, by simp⟩
        · simp [scanStep, ltMinDiff, h]
        · intro x hx
          rw [hl] at hx
          rcases List.mem_append.1 hx with hx | hx
          · exact lt_trans h (hpre x hx)
          · rcases List.mem_cons.1 hx with hx | hx
            · subst hx; exact h
            · exact lt_of_lt_of_le h (hpost x hx)
      · refine ⟨pre, c, post ++ [a], by simp [hl], ?_, hpre, ?_⟩
        · simp [scanStep, ltMinDiff, h]
        · intro x hx
          rcases List.mem_append.1 hx with hx | hx
          · exact hpost x hx
          · have : x = a := by simpa using hx
            subst this
            exact Nat.le_of_not_lt h

/-- Closed form of the aligner on a present candle list. -/
theorem findClosestCandle_some (cs : List Candle) (ts : Int) :
    findClosestCandle (some cs) ts =
      if minDiffGt 300 (cs.foldl (scanStep ts) { closest := none, minDiff := none }).minDiff
      then none
      else (cs.foldl (scanStep ts) { closest := none, minDiff := none }).closest := by
  cases cs with
  | nil => simp [findClosestCandle, minDiffGt]
  | cons c cs => simp [findClosestCandle]

/-- A successful alignment returns the first candle at the least distance, and
that distance is within the tolerance. -/
theorem findClosestCandle_some_imp (cs : List Candle) (ts : Int) (c : Candle)
    (h : findClosestCandle (some cs) ts = some c) :
    ∃ pre post, cs = pre ++ c :: post ∧ (c.time - ts).natAbs ≤ 300 ∧
      (∀ x ∈ pre, (c.time - ts).natAbs < (x.time - ts).natAbs) ∧
      (∀ x ∈ post, (c.time - ts).natAbs ≤ (x.time - ts).natAbs) := by
  rw [findClosestCandle_some] at h
  rcases scan_spec ts cs with ⟨hl, hs⟩ | ⟨pre, d, post, hl, hs, hpre, hpost⟩
  · subst hl
    simp [minDiffGt] at h
  · rw [hs] at h
    by_cases h300 : (d.time - ts).natAbs ≤ 300
    · have hd : d = c := by simpa [minDiffGt, h300] using h
      subst hd
      exact ⟨pre, post, hl, h300, hpre, hpost⟩
    · simp [minDiffGt, h300] at h

/-- The aligner fails exactly when every candle is farther than the tolerance. -/
theorem findClosestCandle_eq_none_iff (cs : List Candle) (ts : Int) :
    findClosestCandle (some cs) ts = none ↔ ∀ x ∈ cs, 300 < (x.time - ts).natAbs := by
  rw [findClosestCandle_some]
  rcases scan_spec ts cs with ⟨hl, hs⟩ | ⟨pre, d, post, hl, hs, hpre, hpost⟩
  · subst hl
    simp [minDiffGt]
  · rw [hs]
    have hmin : ∀ x ∈ cs, (d.time - ts).natAbs ≤ (x.time - ts).natAbs := by
      intro x hx
      rw [hl] at hx
      rcases List.mem_append.1 hx with hx | hx
      · exact le_of_lt (hpre x hx)
      · rcases List.mem_cons.1 hx with hx | hx
        · rw [hx]
        · exact hpost x hx
    have hd : d ∈ cs := by rw [hl]; simp
    by_cases h300 : (d.time - ts).natAbs ≤ 300
    · simp only [minDiffGt, gt_iff_lt, decide_eq_true_eq, not_lt.2 h300, if_false]
      constructor
      · intro h; cases h
      · intro h; exact absurd (h d hd) (not_lt.2 h300)
    · have h300b : 300 < (d.time - ts).natAbs := not_le.1 h300
      simp only [minDiffGt, gt_iff_lt, decide_eq_true_eq, h300b, if_true, true_iff]
      intro x hx
      exact lt_of_lt_of_le h300b (hmin x hx)

/-- Absolute distance on integers, as a natural number. -/
theorem abs_sub_eq_natAbs (a b : Int) : |a - b| = ((a - b).natAbs : Int) :=
  Int.abs_eq_natAbs (a - b)

/-! ## Temporal aligner: claims -/

/-- C1: for every candle sequence (present or absent) and every integer
timestamp, `findClosestCandle` returns either `null` or a candle that is an
element of the sequence and lies within 300 seconds of the timestamp. -/
theorem C1_findClosestCandle_within_tolerance (C : Option (List Candle)) (ts : Int) :
    findClosestCandle C ts = none ∨
    ∃ c cs, findClosestCandle C ts = some c ∧ C = some cs ∧ c ∈ cs ∧ |c.time - ts| ≤ 300 := by
  cases C with
  | none => exact Or.inl rfl
  | some cs =>
    cases h : findClosestCandle (some cs) ts with
    | none => exact Or.inl rfl
    | some c =>
      obtain ⟨pre, post, hl, h300, -, -⟩ := findClosestCandle_some_imp cs ts c h
      refine Or.inr ⟨c, cs, rfl, rfl, by rw [hl]; simp, ?_⟩
      rw [abs_sub_eq_natAbs]
      exact_mod_cast h300

/-- C2: `findClosestCandle` returns `null` if and only if no candle of the
sequence lies within 300 seconds of the timestamp; in particular it returns
`null` for an empty and for an absent sequence. -/
theorem C2_findClosestCandle_none_iff (C : Option (List Candle)) (ts : Int) :
    (findClosestCandle C ts = none ↔
      ¬ ∃ cs c, C = some cs ∧ c ∈ cs ∧ |c.time - ts| ≤ 300) ∧
    findClosestCandle (some []) ts = none ∧
    findClosestCandle none ts = none := by
  refine ⟨?_, rfl, rfl⟩
  cases C with
  | none => simp [findClosestCandle]
  | some cs =>
    rw [findClosestCandle_eq_none_iff]
    constructor
    · rintro h ⟨cs2, c, hcs, hc, hle⟩
      cases hcs
      have h1 := h c hc
      rw [abs_sub_eq_natAbs] at hle
      have h2 : (c.time - ts).natAbs ≤ 300 := by exact_mod_cast hle
      omega
    · intro h x hx
      by_contra hcon
      apply h
      refine ⟨cs, x, rfl, hx, ?_⟩
      rw [abs_sub_eq_natAbs]
      have : (x.time - ts).natAbs ≤ 300 := not_lt.1 hcon
      exact_mod_cast this

/-- C3: a candle returned by `findClosestCandle` is a nearest candle of the
sequence, and if some candle has time equal to the timestamp then a candle is
returned and its time equals the timestamp. -/
theorem C3_findClosestCandle_nearest (cs : List Candle) (ts : Int) :
    (∀ c, findClosestCandle (some cs) ts = some c →
      ∀ d ∈ cs, |c.time - ts| ≤ |d.time - ts|) ∧
    ((∃ d ∈ cs, d.time = ts) →
      ∃ c, findClosestCandle (some cs) ts = some c ∧ c.time = ts) := by
  have hnear : ∀ c, findClosestCandle (some cs) ts = some c →
      ∀ d ∈ cs, (c.time - ts).natAbs ≤ (d.time - ts).natAbs := by
    intro c h d hd
    obtain ⟨pre, post, hl, -, hpre, hpost⟩ := findClosestCandle_some_imp cs ts c h
    rw [hl] at hd
    rcases List.mem_append.1 hd with hx | hx
    · exact le_of_lt (hpre d hx)
    · rcases List.mem_cons.1 hx with hx | hx
      · rw [hx]
      · exact hpost d hx
  constructor
  · intro c h d hd
    rw [abs_sub_eq_natAbs, abs_sub_eq_natAbs]
    exact_mod_cast hnear c h d hd
  · rintro ⟨d, hd, hdt⟩
    cases h : findClosestCandle (some cs) ts with
    | none =>
      have h1 := (findClosestCandle_eq_none_iff cs ts).1 h d hd
      rw [hdt] at h1
      simp at h1
    | some c =>
      refine ⟨c, rfl, ?_⟩
      have h1 := hnear c h d hd
      rw [hdt] at h1
      simp at h1
      omega

/-- Witness for C3 on a two-candle sequence, one candle sitting on the timestamp. -/
theorem C3_findClosestCandle_nearest_witness :
    findClosestCandle (some [⟨90, 1, 1, 1, 1⟩, ⟨100, 2, 2, 2, 2⟩]) 100 = some ⟨100, 2, 2, 2, 2⟩ ∧
    (∀ d ∈ [(⟨90, 1, 1, 1, 1⟩ : Candle), ⟨100, 2, 2, 2, 2⟩],
      |(⟨100, 2, 2, 2, 2⟩ : Candle).time - 100| ≤ |d.time - 100|) ∧
    (∃ c, findClosestCandle (some [⟨90, 1, 1, 1, 1⟩, ⟨100, 2, 2, 2, 2⟩]) 100 = some c ∧
      c.time = 100) :=
  ⟨by decide,
   (C3_findClosestCandle_nearest [⟨90, 1, 1, 1, 1⟩, ⟨100, 2, 2, 2, 2⟩] 100).1 _ (by decide),
   (C3_findClosestCandle_nearest [⟨90, 1, 1, 1, 1⟩, ⟨100, 2, 2, 2, 2⟩] 100).2
     ⟨⟨100, 2, 2, 2, 2⟩, by decide, rfl⟩⟩

/-- C4: when `findClosestCandle` returns a candle, it is the candle at the
smallest index among those that attain the minimum distance to the timestamp
(every earlier candle is strictly farther, no candle is nearer); and the result
is a function of the candle sequence and the timestamp alone. -/
theorem C4_findClosestCandle_first_minimum (cs : List Candle) (ts : Int) (c : Candle)
    (h : findClosestCandle (some cs) ts = some c) :
    (∃ i : Nat, cs[i]? = some c ∧
      ∀ (j : Nat) (d : Candle), cs[j]? = some d →
        |c.time - ts| ≤ |d.time - ts| ∧ (j < i → |c.time - ts| < |d.time - ts|)) ∧
    (∀ cs2 ts2, cs2 = cs → ts2 = ts → findClosestCandle (some cs2) ts2 = some c) := by
  refine ⟨?_, ?_⟩
  · obtain ⟨pre, post, hl, -, hpre, hpost⟩ := findClosestCandle_some_imp cs ts c h
    subst hl
    refine ⟨pre.length, by rw [List.getElem?_append_right (le_refl _)]; simp, ?_⟩
    intro j d hj
    rw [abs_sub_eq_natAbs, abs_sub_eq_natAbs]
    by_cases hlt : j < pre.length
    · rw [List.getElem?_append_left hlt] at hj
      have hd : d ∈ pre := List.getElem?_mem hj
      have := hpre d hd
      constructor
      · exact_mod_cast le_of_lt this
      · intro _; exact_mod_cast this
    · have hge : pre.length ≤ j := not_lt.1 hlt
      rw [List.getElem?_append_right hge] at hj
      have hd : d ∈ c :: post := List.getElem?_mem hj
      constructor
      · rcases List.mem_cons.1 hd with hx | hx
        · rw [hx]
        · exact_mod_cast hpost d hx
      · intro hji; omega
  · intro cs2 ts2 h1 h2
    rw [h1, h2, h]

/-- Witness for C4: two candles at distance 10 on either side of the timestamp;
the first one is returned. -/
theorem C4_findClosestCandle_first_minimum_witness :
    findClosestCandle (some [⟨110, 1, 1, 1, 1⟩, ⟨90, 2, 2, 2, 2⟩]) 100 = some ⟨110, 1, 1, 1, 1⟩ ∧
    ((∃ i : Nat, [(⟨110, 1, 1, 1, 1⟩ : Candle), ⟨90, 2, 2, 2, 2⟩][i]? = some ⟨110, 1, 1, 1, 1⟩ ∧
      ∀ (j : Nat) (d : Candle), [(⟨110, 1, 1, 1, 1⟩ : Candle), ⟨90, 2, 2, 2, 2⟩][j]? = some d →
        |(⟨110, 1, 1, 1, 1⟩ : Candle).time - 100| ≤ |d.time - 100| ∧
        (j < i → |(⟨110, 1, 1, 1, 1⟩ : Candle).time - 100| < |d.time - 100|)) ∧
    (∀ cs2 ts2, cs2 = [(⟨110, 1, 1, 1, 1⟩ : Candle), ⟨90, 2, 2, 2, 2⟩] → ts2 = 100 →
      findClosestCandle (some cs2) ts2 = some ⟨110, 1, 1, 1, 1⟩)) :=
  ⟨by decide,
   C4_findClosestCandle_first_minimum [⟨110, 1, 1, 1, 1⟩, ⟨90, 2, 2, 2, 2⟩] 100 _ (by decide)⟩

/-! ## Overlay builder and load cycle: auxiliary facts -/

/-- A candle returned by the aligner is an element of the (present) candle list. -/
theorem findClosestCandle_mem (C : Option (List Candle)) (ts : Int) (c : Candle)
    (h : findClosestCandle C ts = some c) : ∃ cs, C = some cs ∧ c ∈ cs := by
  cases C with
  | none => simp [findClosestCandle] at h
  | some cs =>
    obtain ⟨pre, post, hl, -, -, -⟩ := findClosestCandle_some_imp cs ts c h
    exact ⟨cs, rfl, by rw [hl]; simp⟩

/-- The markers pushed by the entry block. -/
theorem mem_entryMarkers (trade : Trade) (m : Marker) :
    m ∈ entryMarkers trade ↔
      ∃ ts c, trade.entry_ts = some ts ∧ ts ≠ 0 ∧ findClosestCandle trade.candles ts = some c ∧
        m = { time := c.time, position := "belowBar", color := "#2196F3", shape := "arrowUp",
              text := { literal := "Entry @ ", value := trade.entry_price } } := by
  unfold entryMarkers
  cases hts : trade.entry_ts with
  | none => simp
  | some ts =>
    by_cases h0 : ts = 0
    · simp [truthyNum, h0]
    · cases hc : findClosestCandle trade.candles ts with
      | none => simp [truthyNum, h0, hc]
      | some c => simp [truthyNum, h0, hc]

/-- The markers pushed by the exit block. -/
theorem mem_exitMarkers (trade : Trade) (m : Marker) :
    m ∈ exitMarkers trade ↔
      ∃ ts c, trade.exit_ts = some ts ∧ ts ≠ 0 ∧ findClosestCandle trade.candles ts = some c ∧
        m = { time := c.time, position := "aboveBar", color := "#FF9800", shape := "arrowDown",
              text := { literal := "Exit @ ", value := trade.exit_price } } := by
  unfold exitMarkers
  cases hts : trade.exit_ts with
  | none => simp
  | some ts =>
    by_cases h0 : ts = 0
    · simp [truthyNum, h0]
    · cases hc : findClosestCandle trade.candles ts with
      | none => simp [truthyNum, h0, hc]
      | some c => simp [truthyNum, h0, hc]

/-- The entry block pushes at most one marker. -/
theorem entryMarkers_length_le (trade : Trade) : (entryMarkers trade).length ≤ 1 := by
  unfold entryMarkers
  split
  · simp
  · split
    · split <;> simp
    · simp

/-- The exit block pushes at most one marker. -/
theorem exitMarkers_length_le (trade : Trade) : (exitMarkers trade).length ≤ 1 := by
  unfold exitMarkers
  split
  · simp
  · split
    · split <;> simp
    · simp

/-- Every marker built for a trade is anchored on a candle of the trade. -/
theorem buildMarkers_anchored (trade : Trade) (m : Marker) (hm : m ∈ buildMarkers trade) :
    ∃ cs c, trade.candles = some cs ∧ c ∈ cs ∧ c.time = m.time := by
  unfold buildMarkers at hm
  rcases List.mem_append.1 hm with h | h
  · obtain ⟨ts, c, -, -, hc, rfl⟩ := (mem_entryMarkers trade m).1 h
    obtain ⟨cs, hcs, hmem⟩ := findClosestCandle_mem _ _ _ hc
    exact ⟨cs, c, hcs, hmem, rfl⟩
  · obtain ⟨ts, c, -, -, hc, rfl⟩ := (mem_exitMarkers trade m).1 h
    obtain ⟨cs, hcs, hmem⟩ := findClosestCandle_mem _ _ _ hc
    exact ⟨cs, c, hcs, hmem, rfl⟩

/-- The state after a load cycle, by outcome of the `try` block. -/
theorem loadData_eq (symbol mode : String) (tradeData : Option Trade)
    (live : Fetched LiveChart) (allData : Fetched (Option (List Trade))) (st : ModalState) :
    loadData symbol mode tradeData live allData st =
      match loadBody symbol mode tradeData live allData with
      | Except.ok (some cd) => { loading := false, chartData := cd, error := none }
      | Except.ok none => { loading := false, chartData := st.chartData, error := none }
      | Except.error msg => { loading := false, chartData := st.chartData, error := some msg } := by
  unfold loadData
  cases h : loadBody symbol mode tradeData live allData with
  | error msg => rfl
  | ok r =>
    cases r with
    | none => rfl
    | some cd => rfl

/-- In live and backtest mode a `try` block that does not throw calls
`setChartData`, with markers anchored on the candles it sets. -/
theorem loadBody_ok_anchored (symbol mode : String) (tradeData : Option Trade)
    (live : Fetched LiveChart) (allData : Fetched (Option (List Trade)))
    (hmode : mode = "live" ∨ mode = "backtest") (r : Option ChartData)
    (h : loadBody symbol mode tradeData live allData = Except.ok r) :
    ∃ cd, r = some cd ∧
      ∀ m ∈ cd.markers, ∃ cs c, cd.candles = some cs ∧ c ∈ cs ∧ c.time = m.time := by
  unfold loadBody at h
  rcases hmode with hm | hm
  · subst hm
    simp only [if_true] at h
    cases live with
    | rejected msg => simp at h
    | resolved data =>
      simp only at h
      cases he : data.error with
      | none =>
        rw [he] at h
        simp only [Except.ok.injEq] at h
        exact ⟨_, h.symm, by simp⟩
      | some err =>
        rw [he] at h
        simp only at h
        split at h
        · simp at h
        · simp only [Except.ok.injEq] at h
          exact ⟨_, h.symm, by simp⟩
  · subst hm
    have hne : ¬ ("backtest" = "live") := by decide
    simp only [hne, if_false, if_true] at h
    cases hl : lookupTrade symbol tradeData allData with
    | error msg => rw [hl] at h; simp at h
    | ok t =>
      cases t with
      | none => rw [hl] at h; simp at h
      | some trade =>
        rw [hl] at h
        simp only [Except.ok.injEq] at h
        refine ⟨_, h.symm, ?_⟩
        intro m hm
        exact buildMarkers_anchored trade m hm

/-! ## Overlay builder and load cycle: claims -/

/-- C5: in live and in backtest mode, every marker in the chart data set by a
load cycle that ends without error has the time of some candle of the candle
sequence set in the same chart data; and the marker list built for a trade
holds no marker whose time is absent from the trade's candle sequence. -/
theorem C5_markers_anchored_on_candles (symbol mode : String) (tradeData : Option Trade)
    (live : Fetched LiveChart) (allData : Fetched (Option (List Trade))) (st : ModalState)
    (hmode : mode = "live" ∨ mode = "backtest")
    (hok : (loadData symbol mode tradeData live allData st).error = none) :
    (∀ m ∈ (loadData symbol mode tradeData live allData st).chartData.markers,
      ∃ cs c, (loadData symbol mode tradeData live allData st).chartData.candles = some cs ∧
        c ∈ cs ∧ c.time = m.time) ∧
    (∀ trade : Trade, ∀ m ∈ buildMarkers trade,
      ∃ cs c, trade.candles = some cs ∧ c ∈ cs ∧ c.time = m.time) := by
  refine ⟨?_, fun trade m hm => buildMarkers_anchored trade m hm⟩
  rw [loadData_eq] at hok ⊢
  cases h : loadBody symbol mode tradeData live allData with
  | error msg => rw [h] at hok; simp at hok
  | ok r =>
    obtain ⟨cd, hr, hcd⟩ := loadBody_ok_anchored symbol mode tradeData live allData hmode r h
    subst hr
    exact hcd

/-- Witness for C5: a backtest cycle on a trade with one candle at time 100 and
an entry at 130. -/
theorem C5_markers_anchored_on_candles_witness :
    ("backtest" = "live" ∨ "backtest" = "backtest") ∧
    (loadData "ABC" "backtest"
      (some { symbol := "ABC", entry_ts := some 130, entry_price := some 5, exit_ts := none,
              exit_price := none, stop_loss := none, target := none,
              trailing_stop_line := none, candles := some [⟨100, 1, 1, 1, 1⟩] })
      (Fetched.rejected "") (Fetched.rejected "") initialState).chartData.markers
      = [{ time := 100, position := "belowBar", color := "#2196F3", shape := "arrowUp",
           text := { literal := "Entry @ ", value := some 5 } }] ∧
    ((∀ m ∈ (loadData "ABC" "backtest"
      (some { symbol := "ABC", entry_ts := some 130, entry_price := some 5, exit_ts := none,
              exit_price := none, stop_loss := none, target := none,
              trailing_stop_line := none, candles := some [⟨100, 1, 1, 1, 1⟩] })
      (Fetched.rejected "") (Fetched.rejected "") initialState).chartData.markers,
      ∃ cs c, (loadData "ABC" "backtest"
        (some { symbol := "ABC", entry_ts := some 130, entry_price := some 5, exit_ts := none,
                exit_price := none, stop_loss := none, target := none,
                trailing_stop_line := none, candles := some [⟨100, 1, 1, 1, 1⟩] })
        (Fetched.rejected "") (Fetched.rejected "") initialState).chartData.candles = some cs ∧
        c ∈ cs ∧ c.time = m.time) ∧
    (∀ trade : Trade, ∀ m ∈ buildMarkers trade,
      ∃ cs c, trade.candles = some cs ∧ c ∈ cs ∧ c.time = m.time)) :=
  ⟨Or.inr rfl, by decide,
   C5_markers_anchored_on_candles "ABC" "backtest" _ (Fetched.rejected "") (Fetched.rejected "")
     initialState (Or.inr rfl) (by decide)⟩

/-- C6, as stated, fails: the trade `zeroEntryTrade` has `entry_ts` present
(the integer 0) and aligning it against its candles succeeds, yet no entry
marker is emitted. -/
theorem C6_counterexample_zero_entry_ts :
    zeroEntryTrade.entry_ts = some 0 ∧
    findClosestCandle zeroEntryTrade.candles 0 = some ⟨0, 1, 1, 1, 1⟩ ∧
    buildMarkers zeroEntryTrade = [] ∧
    ¬ ((∃ m ∈ buildMarkers zeroEntryTrade, m.position = "belowBar") ↔
        ∃ ts, zeroEntryTrade.entry_ts = some ts ∧
          (findClosestCandle zeroEntryTrade.candles ts).isSome = true) := by
  refine ⟨rfl, by decide, by decide, ?_⟩
  intro h
  have h1 : ∃ m ∈ buildMarkers zeroEntryTrade, m.position = "belowBar" :=
    h.2 ⟨0, rfl, by decide⟩
  revert h1
  decide

/-- C6, amended: an entry marker (below the bar) is emitted if and only if
`entry_ts` is present, is not zero, and aligning it against `trade.candles`
succeeds; an exit marker (above the bar) if and only if `exit_ts` is present, is
not zero, and aligning it succeeds; there is at most one of each and no other
marker. With one candle at time 100, `entry_ts = 100` and no exit, exactly one
marker is emitted, at time 100. -/
theorem C6_markers_emitted (trade : Trade) :
    ((∃ m ∈ buildMarkers trade, m.position = "belowBar") ↔
      ∃ ts, trade.entry_ts = some ts ∧ ts ≠ 0 ∧
        (findClosestCandle trade.candles ts).isSome = true) ∧
    ((∃ m ∈ buildMarkers trade, m.position = "aboveBar") ↔
      ∃ ts, trade.exit_ts = some ts ∧ ts ≠ 0 ∧
        (findClosestCandle trade.candles ts).isSome = true) ∧
    (∀ m ∈ buildMarkers trade, m.position = "belowBar" ∨ m.position = "aboveBar") ∧
    (buildMarkers trade).countP (fun m => decide (m.position = "belowBar")) ≤ 1 ∧
    (buildMarkers trade).countP (fun m => decide (m.position = "aboveBar")) ≤ 1 ∧
    (∀ c : Candle, c.time = 100 → trade.candles = some [c] → trade.entry_ts = some 100 →
      trade.exit_ts = none →
      ∃ m, buildMarkers trade = [m] ∧ m.time = 100 ∧ m.position = "belowBar") := by
  have hab : ¬ ("aboveBar" = "belowBar") := by decide
  have hba : ¬ ("belowBar" = "aboveBar") := by decide
  refine ⟨?_, ?_, ?_, ?_, ?_, ?_⟩
  · constructor
    · rintro ⟨m, hm, hpos⟩
      rcases List.mem_append.1 hm with h | h
      · obtain ⟨ts, c, hts, h0, hc, -⟩ := (mem_entryMarkers trade m).1 h
        exact ⟨ts, hts, h0, by rw [hc]; rfl⟩
      · obtain ⟨ts, c, -, -, -, rfl⟩ := (mem_exitMarkers trade m).1 h
        exact absurd hpos hab
    · rintro ⟨ts, hts, h0, hc⟩
      obtain ⟨c, hc⟩ := Option.isSome_iff_exists.1 hc
      exact ⟨_, List.mem_append.2 (Or.inl ((mem_entryMarkers trade _).2 ⟨ts, c, hts, h0, hc, rfl⟩)),
        rfl⟩
  · constructor
    · rintro ⟨m, hm, hpos⟩
      rcases List.mem_append.1 hm with h | h
      · obtain ⟨ts, c, -, -, -, rfl⟩ := (mem_entryMarkers trade m).1 h
        exact absurd hpos hba
      · obtain ⟨ts, c, hts, h0, hc, -⟩ := (mem_exitMarkers trade m).1 h
        exact ⟨ts, hts, h0, by rw [hc]; rfl⟩
    · rintro ⟨ts, hts, h0, hc⟩
      obtain ⟨c, hc⟩ := Option.isSome_iff_exists.1 hc
      exact ⟨_, List.mem_append.2 (Or.inr ((mem_exitMarkers trade _).2 ⟨ts, c, hts, h0, hc, rfl⟩)),
        rfl⟩
  · intro m hm
    rcases List.mem_append.1 hm with h | h
    · obtain ⟨ts, c, -, -, -, rfl⟩ := (mem_entryMarkers trade m).1 h
      exact Or.inl rfl
    · obtain ⟨ts, c, -, -, -, rfl⟩ := (mem_exitMarkers trade m).1 h
      exact Or.inr rfl
  · unfold buildMarkers
    rw [List.countP_append]
    have h1 : (exitMarkers trade).countP (fun m => decide (m.position = "belowBar")) = 0 := by
      rw [List.countP_eq_zero]
      intro m hm
      obtain ⟨ts, c, -, -, -, rfl⟩ := (mem_exitMarkers trade m).1 hm
      simp
    have h2 := List.countP_le_length (fun m : Marker => decide (m.position = "belowBar"))
      (l := entryMarkers trade)
    have h3 := entryMarkers_length_le trade
    omega
  · unfold buildMarkers
    rw [List.countP_append]
    have h1 : (entryMarkers trade).countP (fun m => decide (m.position = "aboveBar")) = 0 := by
      rw [List.countP_eq_zero]
      intro m hm
      obtain ⟨ts, c, -, -, -, rfl⟩ := (mem_entryMarkers trade m).1 hm
      simp
    have h2 := List.countP_le_length (fun m : Marker => decide (m.position = "aboveBar"))
      (l := exitMarkers trade)
    have h3 := exitMarkers_length_le trade
    omega
  · intro c hc hcs hts hx
    have hfc : findClosestCandle (some [c]) 100 = some c := by
      simp [findClosestCandle, scanStep, ltMinDiff, minDiffGt, hc]
    refine ⟨{ time := c.time, position := "belowBar", color := "#2196F3", shape := "arrowUp",
              text := { literal := "Entry @ ", value := trade.entry_price } }, ?_, hc, rfl⟩
    simp [buildMarkers, entryMarkers, exitMarkers, hts, hx, hcs, hfc, truthyNum]

/-- Witness for C6 on Scenario A: one below-bar marker at time 100. -/
theorem C6_markers_emitted_witness :
    buildMarkers scenarioA
      = [{ time := 100, position := "belowBar", color := "#2196F3", shape := "arrowUp",
           text := { literal := "Entry @ ", value := some 5 } }] ∧
    (∃ m, buildMarkers scenarioA = [m] ∧ m.time = 100 ∧ m.position = "belowBar") :=
  ⟨by decide, (C6_markers_emitted scenarioA).2.2.2.2.2 ⟨100, 1, 1, 1, 1⟩ rfl rfl rfl rfl⟩

/-- C7: every marker pushed by the entry block has position `belowBar`, shape
`arrowUp`, the text `Entry @ ` followed by the trade's `entry_price`, and the
time of the candle returned by aligning `entry_ts` against `trade.candles`;
every marker pushed by the exit block has position `aboveBar`, shape
`arrowDown`, the text `Exit @ ` followed by `exit_price`, and the time of the
candle returned by aligning `exit_ts`; the marker list holds exactly these. -/
theorem C7_marker_attributes (trade : Trade) :
    (∀ m ∈ entryMarkers trade,
      m.position = "belowBar" ∧ m.shape = "arrowUp" ∧
      m.text = { literal := "Entry @ ", value := trade.entry_price } ∧
      ∃ ts c, trade.entry_ts = some ts ∧ findClosestCandle trade.candles ts = some c ∧
        m.time = c.time) ∧
    (∀ m ∈ exitMarkers trade,
      m.position = "aboveBar" ∧ m.shape = "arrowDown" ∧
      m.text = { literal := "Exit @ ", value := trade.exit_price } ∧
      ∃ ts c, trade.exit_ts = some ts ∧ findClosestCandle trade.candles ts = some c ∧
        m.time = c.time) ∧
    (∀ m, m ∈ buildMarkers trade ↔ m ∈ entryMarkers trade ∨ m ∈ exitMarkers trade) := by
  refine ⟨?_, ?_, ?_⟩
  · intro m hm
    obtain ⟨ts, c, hts, -, hc, rfl⟩ := (mem_entryMarkers trade m).1 hm
    exact ⟨rfl, rfl, rfl, ts, c, hts, hc, rfl⟩
  · intro m hm
    obtain ⟨ts, c, hts, -, hc, rfl⟩ := (mem_exitMarkers trade m).1 hm
    exact ⟨rfl, rfl, rfl, ts, c, hts, hc, rfl⟩
  · intro m
    exact List.mem_append

/-- Witness for C7 on Scenario A: the entry marker and its attributes. -/
theorem C7_marker_attributes_witness :
    entryMarkers scenarioA
      = [{ time := 100, position := "belowBar", color := "#2196F3", shape := "arrowUp",
           text := { literal := "Entry @ ", value := some 5 } }] ∧
    (∀ m ∈ entryMarkers scenarioA,
      m.position = "belowBar" ∧ m.shape = "arrowUp" ∧
      m.text = { literal := "Entry @ ", value := scenarioA.entry_price } ∧
      ∃ ts c, scenarioA.entry_ts = some ts ∧ findClosestCandle scenarioA.candles ts = some c ∧
        m.time = c.time) :=
  ⟨by decide, (C7_marker_attributes scenarioA).1⟩

/-- C8: when the trade in use has an `entry_ts` (respectively `exit_ts`) with no
candle of `trade.candles` within 300 seconds, the backtest load cycle still ends
with `loading = false` and no error, and the chart data holds the trade's
candles, the markers of the other rule and all the lines; the missed marker is
simply omitted. With one candle at time 100, `entry_ts = 1000` and no exit, no
marker is emitted. -/
theorem C8_alignment_miss_is_not_an_error (symbol : String) (tradeData : Option Trade)
    (live : Fetched LiveChart) (allData : Fetched (Option (List Trade))) (st : ModalState)
    (trade : Trade) (hsel : lookupTrade symbol tradeData allData = Except.ok (some trade)) :
    (∀ ts, trade.entry_ts = some ts →
      (∀ cs c, trade.candles = some cs → c ∈ cs → 300 < |c.time - ts|) →
      loadData symbol "backtest" tradeData live allData st =
        { loading := false, error := none,
          chartData := { candles := trade.candles, markers := exitMarkers trade,
                         lines := buildLines trade } }) ∧
    (∀ ts, trade.exit_ts = some ts →
      (∀ cs c, trade.candles = some cs → c ∈ cs → 300 < |c.time - ts|) →
      loadData symbol "backtest" tradeData live allData st =
        { loading := false, error := none,
          chartData := { candles := trade.candles, markers := entryMarkers trade,
                         lines := buildLines trade } }) ∧
    (∀ c : Candle, c.time = 100 → trade.candles = some [c] → trade.entry_ts = some 1000 →
      trade.exit_ts = none →
      (loadData symbol "backtest" tradeData live allData st).chartData.markers = [] ∧
      (loadData symbol "backtest" tradeData live allData st).error = none ∧
      (loadData symbol "backtest" tradeData live allData st).loading = false) := by
  have hne : ¬ ("backtest" = "live") := by decide
  have hload : loadData symbol "backtest" tradeData live allData st =
      { loading := false, error := none, chartData := buildChartData trade } := by
    rw [loadData_eq]
    simp [loadBody, hne, hsel]
  have hmiss : ∀ ts, (∀ cs c, trade.candles = some cs → c ∈ cs → 300 < |c.time - ts|) →
      findClosestCandle trade.candles ts = none := by
    intro ts hfar
    cases hcs : trade.candles with
    | none => rfl
    | some cs =>
      rw [findClosestCandle_eq_none_iff]
      intro x hx
      have := hfar cs x hcs hx
      rw [abs_sub_eq_natAbs] at this
      exact_mod_cast this
  refine ⟨?_, ?_, ?_⟩
  · intro ts hts hfar
    rw [hload]
    have he : entryMarkers trade = [] := by
      unfold entryMarkers
      rw [hts]
      simp only [hmiss ts hfar]
      split <;> rfl
    simp [buildChartData, buildMarkers, he]
  · intro ts hts hfar
    rw [hload]
    have he : exitMarkers trade = [] := by
      unfold exitMarkers
      rw [hts]
      simp only [hmiss ts hfar]
      split <;> rfl
    simp [buildChartData, buildMarkers, he]
  · intro c hc hcs hts hx
    rw [hload]
    have hfc : findClosestCandle (some [c]) 1000 = none := by
      simp [findClosestCandle, scanStep, ltMinDiff, minDiffGt, hc]
    simp [buildChartData, buildMarkers, entryMarkers, exitMarkers, hts, hx, hcs, hfc, truthyNum]

/-- Witness for C8 on Scenario B, the trade being passed as `tradeData`. -/
theorem C8_alignment_miss_is_not_an_error_witness :
    lookupTrade "ABC" (some scenarioB) (Fetched.rejected "") = Except.ok (some scenarioB) ∧
    loadData "ABC" "backtest" (some scenarioB) (Fetched.rejected "") (Fetched.rejected "")
        initialState =
      { loading := false, error := none,
        chartData := { candles := some [⟨100, 1, 1, 1, 1⟩], markers := [],
                       lines := [LineOverlay.price 90 "#ef5350" "SL"] } } ∧
    ((loadData "ABC" "backtest" (some scenarioB) (Fetched.rejected "") (Fetched.rejected "")
        initialState).chartData.markers = [] ∧
      (loadData "ABC" "backtest" (some scenarioB) (Fetched.rejected "") (Fetched.rejected "")
        initialState).error = none ∧
      (loadData "ABC" "backtest" (some scenarioB) (Fetched.rejected "") (Fetched.rejected "")
        initialState).loading = false) :=
  ⟨rfl, by decide,
   (C8_alignment_miss_is_not_an_error "ABC" (some scenarioB) (Fetched.rejected "")
     (Fetched.rejected "") initialState scenarioB rfl).2.2 ⟨100, 1, 1, 1, 1⟩ rfl rfl rfl rfl⟩

/-- The price lines and series lines of the `lines` array built for a trade. -/
theorem mem_buildLines (trade : Trade) (l : LineOverlay) :
    l ∈ buildLines trade ↔
      (∃ s, trade.stop_loss = some s ∧ s ≠ 0 ∧ l = LineOverlay.price s "#ef5350" "SL") ∨
      (∃ t, trade.target = some t ∧ t ≠ 0 ∧ l = LineOverlay.price t "#26a69a" "TP") ∨
      (∃ d, trade.trailing_stop_line = some d ∧
        l = LineOverlay.series d "rgba(255, 12, 12, 0.8)") := by
  unfold buildLines
  cases hs : trade.stop_loss with
  | none =>
    cases ht : trade.target with
    | none => cases hd : trade.trailing_stop_line <;> simp
    | some t =>
      by_cases h0 : t = 0 <;> cases hd : trade.trailing_stop_line <;> simp [truthyNum, h0]
  | some s =>
    cases ht : trade.target with
    | none =>
      by_cases h1 : s = 0 <;> cases hd : trade.trailing_stop_line <;> simp [truthyNum, h1]
    | some t =>
      by_cases h1 : s = 0 <;> by_cases h0 : t = 0 <;> cases hd : trade.trailing_stop_line <;>
        simp [truthyNum, h1, h0]

/-- The `lines` array holds at most two price lines and at most one series line. -/
theorem buildLines_counts (trade : Trade) :
    (buildLines trade).countP LineOverlay.isPrice ≤ 2 ∧
    (buildLines trade).countP LineOverlay.isSeries ≤ 1 := by
  unfold buildLines
  cases hs : trade.stop_loss with
  | none =>
    cases ht : trade.target with
    | none => cases hd : trade.trailing_stop_line <;> simp [LineOverlay.isPrice, LineOverlay.isSeries]
    | some t =>
      by_cases h0 : t = 0 <;> cases hd : trade.trailing_stop_line <;>
        simp [truthyNum, h0, LineOverlay.isPrice, LineOverlay.isSeries, List.countP_cons]
  | some s =>
    cases ht : trade.target with
    | none =>
      by_cases h1 : s = 0 <;> cases hd : trade.trailing_stop_line <;>
        simp [truthyNum, h1, LineOverlay.isPrice, LineOverlay.isSeries, List.countP_cons]
    | some t =>
      by_cases h1 : s = 0 <;> by_cases h0 : t = 0 <;> cases hd : trade.trailing_stop_line <;>
        simp [truthyNum, h1, h0, LineOverlay.isPrice, LineOverlay.isSeries, List.countP_cons]

/-- C9, as stated, fails: the trade `zeroStopTrade` has `stop_loss` present (the
number 0) and `target = 110`, yet its lines hold no price line at the stop-loss
value: the output is the single target line, not two price lines. -/
theorem C9_counterexample_zero_stop_loss :
    zeroStopTrade.stop_loss = some 0 ∧ zeroStopTrade.target = some 110 ∧
    zeroStopTrade.entry_ts = none ∧ zeroStopTrade.exit_ts = none ∧
    zeroStopTrade.trailing_stop_line = none ∧
    buildLines zeroStopTrade = [LineOverlay.price 110 "#26a69a" "TP"] ∧
    ¬ ∃ color title, LineOverlay.price 0 color title ∈ buildLines zeroStopTrade := by
  refine ⟨rfl, rfl, rfl, rfl, rfl, by decide, ?_⟩
  rintro ⟨color, title, h⟩
  have hl : buildLines zeroStopTrade = [LineOverlay.price 110 "#26a69a" "TP"] := by decide
  rw [hl] at h
  simp at h

/-- C9, amended: the lines hold a price line titled `SL` with price `stop_loss`
if and only if `stop_loss` is present and not zero, a price line titled `TP`
with price `target` if and only if `target` is present and not zero, and no
other price line (at most two in all). For every trade with `stop_loss = s` and
`target = t` present and not zero, and no `entry_ts`, `exit_ts` or
`trailing_stop_line`, the output is exactly the two price lines with prices `s`
and `t`, and no marker. -/
theorem C9_price_lines (trade : Trade) :
    (∀ p color title, LineOverlay.price p color title ∈ buildLines trade ↔
      (trade.stop_loss = some p ∧ p ≠ 0 ∧ color = "#ef5350" ∧ title = "SL") ∨
      (trade.target = some p ∧ p ≠ 0 ∧ color = "#26a69a" ∧ title = "TP")) ∧
    (buildLines trade).countP LineOverlay.isPrice ≤ 2 ∧
    (∀ s t : ℚ, s ≠ 0 → t ≠ 0 → trade.stop_loss = some s → trade.target = some t →
      trade.entry_ts = none → trade.exit_ts = none → trade.trailing_stop_line = none →
      buildLines trade = [LineOverlay.price s "#ef5350" "SL", LineOverlay.price t "#26a69a" "TP"] ∧
      buildMarkers trade = []) := by
  refine ⟨?_, (buildLines_counts trade).1, ?_⟩
  · intro p color title
    rw [mem_buildLines]
    constructor
    · rintro (⟨s, hs, h0, h⟩ | ⟨t, ht, h0, h⟩ | ⟨d, -, h⟩)
      · simp only [LineOverlay.price.injEq] at h
        obtain ⟨rfl, rfl, rfl⟩ := h
        exact Or.inl ⟨hs, h0, rfl, rfl⟩
      · simp only [LineOverlay.price.injEq] at h
        obtain ⟨rfl, rfl, rfl⟩ := h
        exact Or.inr ⟨ht, h0, rfl, rfl⟩
      · cases h
    · rintro (⟨hs, h0, rfl, rfl⟩ | ⟨ht, h0, rfl, rfl⟩)
      · exact Or.inl ⟨p, hs, h0, rfl⟩
      · exact Or.inr (Or.inl ⟨p, ht, h0, rfl⟩)
  · intro s t hs0 ht0 hs ht hen hex htr
    constructor
    · simp [buildLines, hs, ht, htr, truthyNum, hs0, ht0]
    · simp [buildMarkers, entryMarkers, exitMarkers, hen, hex]

/-- Witness for C9 on Scenario C: stop-loss 90 and target 110 give exactly two
price lines and no marker. -/
theorem C9_price_lines_witness :
    buildLines scenarioC
      = [LineOverlay.price 90 "#ef5350" "SL", LineOverlay.price 110 "#26a69a" "TP"] ∧
    buildMarkers scenarioC = [] :=
  (C9_price_lines scenarioC).2.2 90 110 (by decide) (by decide) rfl rfl rfl rfl rfl

/-- C10, as stated, fails: the trade `emptyTrailTrade` has an empty
`trailing_stop_line`, yet a series line (with no point) is emitted. -/
theorem C10_counterexample_empty_trailing_stop :
    emptyTrailTrade.trailing_stop_line = some [] ∧
    buildLines emptyTrailTrade = [LineOverlay.series [] "rgba(255, 12, 12, 0.8)"] ∧
    ∃ d color, LineOverlay.series d color ∈ buildLines emptyTrailTrade := by
  refine ⟨rfl, by decide, [], "rgba(255, 12, 12, 0.8)", by decide⟩

/-- C10, amended: a series line is emitted if and only if `trailing_stop_line`
is present, the empty sequence included; a trade whose `trailing_stop_line` is
absent yields no series line, and there is never more than one. -/
theorem C10_series_line_emitted (trade : Trade) :
    ((∃ d color, LineOverlay.series d color ∈ buildLines trade) ↔
      trade.trailing_stop_line.isSome = true) ∧
    (trade.trailing_stop_line = none →
      ∀ d color, LineOverlay.series d color ∉ buildLines trade) ∧
    (trade.trailing_stop_line = some [] →
      LineOverlay.series [] "rgba(255, 12, 12, 0.8)" ∈ buildLines trade) ∧
    (buildLines trade).countP LineOverlay.isSeries ≤ 1 := by
  have hmem : ∀ d color, LineOverlay.series d color ∈ buildLines trade →
      trade.trailing_stop_line = some d := by
    intro d color h
    rcases (mem_buildLines trade _).1 h with ⟨s, -, -, h⟩ | ⟨t, -, -, h⟩ | ⟨d2, hd, h⟩
    · cases h
    · cases h
    · simp only [LineOverlay.series.injEq] at h
      rw [h.1]; exact hd
  refine ⟨?_, ?_, ?_, (buildLines_counts trade).2⟩
  · constructor
    · rintro ⟨d, color, h⟩
      rw [hmem d color h]; rfl
    · intro h
      obtain ⟨d, hd⟩ := Option.isSome_iff_exists.1 h
      exact ⟨d, _, (mem_buildLines trade _).2 (Or.inr (Or.inr ⟨d, hd, rfl⟩))⟩
  · intro hnone d color h
    rw [hmem d color h] at hnone
    cases hnone
  · intro h
    exact (mem_buildLines trade _).2 (Or.inr (Or.inr ⟨[], h, rfl⟩))

/-- Witness for C10: an absent path gives no series line (Scenario C), a
present one gives one (`trailTrade`). -/
theorem C10_series_line_emitted_witness :
    (∀ d color, LineOverlay.series d color ∉ buildLines scenarioC) ∧
    (∃ d color, LineOverlay.series d color ∈ buildLines trailTrade) :=
  ⟨(C10_series_line_emitted scenarioC).2.1 rfl,
   (C10_series_line_emitted trailTrade).1.2 rfl⟩

/-! ## Chart session: auxiliary facts -/

/-- The `forEach` over the lines appends one price line per price entry and one
line series per series entry, in order, and touches nothing else. -/
theorem foldl_renderLine (lines : List LineOverlay) (acc : CandlestickSeries × List LineSeries) :
    lines.foldl renderLine acc =
      ({ data := acc.1.data, markers := acc.1.markers,
         priceLines := acc.1.priceLines ++ lines.filterMap LineOverlay.priceLine? },
       acc.2 ++ lines.filterMap LineOverlay.lineSeries?) := by
  induction lines generalizing acc with
  | nil => simp
  | cons l ls ih =>
    rw [List.foldl_cons, ih]
    cases l with
    | price p c t => simp [renderLine, LineOverlay.priceLine?, LineOverlay.lineSeries?]
    | series d c => simp [renderLine, LineOverlay.priceLine?, LineOverlay.lineSeries?]

/-- Closed form of the chart built by the effect: one candlestick series holding
the candles, the markers and one price line per price entry, and one line series
per series entry. -/
theorem buildChart_eq (id : Nat) (w : Int) (data : Option (List Candle))
    (markers : List Marker) (lines : List LineOverlay) (height : Height) :
    buildChart id w data markers lines height =
      { id := id, width := w, height := height,
        candlestickSeries :=
          [{ data := data.getD [], markers := markers,
             priceLines := lines.filterMap LineOverlay.priceLine? }],
        lineSeries := lines.filterMap LineOverlay.lineSeries?, fitContent := true } := by
  unfold buildChart
  simp only [foldl_renderLine]
  rcases data with _ | _ | ⟨c, cs⟩ <;> cases markers <;> cases lines <;> simp

/-- Every line entry renders as exactly one price line or one line series. -/
theorem rendered_count (lines : List LineOverlay) :
    (lines.filterMap LineOverlay.priceLine?).length
      + (lines.filterMap LineOverlay.lineSeries?).length = lines.length := by
  induction lines with
  | nil => rfl
  | cons l ls ih =>
    cases l with
    | price p c t =>
      simp [List.filterMap_cons, LineOverlay.priceLine?, LineOverlay.lineSeries?]
      omega
    | series d c =>
      simp [List.filterMap_cons, LineOverlay.priceLine?, LineOverlay.lineSeries?]
      omega

/-- Well-formedness, unfolded. -/
theorem Session.wf_iff (s : Session) :
    s.wf = true ↔ (∀ c ∈ s.charts, c.id < s.runs) ∧ (∀ h ∈ s.listeners, h < s.runs) := by
  simp [Session.wf, List.all_eq_true]

/-- Removing a chart that is not in the list removes nothing. -/
theorem filter_id_ne_of_lt (l : List Chart) (n : Nat) (h : ∀ c ∈ l, c.id < n) :
    l.filter (fun c => decide (c.id ≠ n)) = l := by
  rw [List.filter_eq_self]
  intro c hc
  have := h c hc
  simp
  omega

/-- Removing a listener that is not in the list removes nothing. -/
theorem filter_ne_of_lt (l : List Nat) (n : Nat) (h : ∀ x ∈ l, x < n) :
    l.filter (fun x => decide (x ≠ n)) = l := by
  rw [List.filter_eq_self]
  intro x hx
  have := h x hx
  simp
  omega

/-- The charts an effect run keeps: all but the one `chartRef.current` refers to. -/
theorem kept_lt (s : Session) (hwf : s.wf = true) :
    ∀ c ∈ (match s.chartRef with
        | some k => s.charts.filter (fun c : Chart => decide (c.id ≠ k))
        | none => s.charts), c.id < s.runs := by
  intro c hc
  have h := ((Session.wf_iff s).1 hwf).1
  cases hk : s.chartRef with
  | none => rw [hk] at hc; exact h c hc
  | some k => rw [hk] at hc; exact h c (List.mem_of_mem_filter hc)

/-- An effect run on a session whose container is attached. -/
theorem chartEffect_attached (data : Option (List Candle)) (markers : List Marker)
    (lines : List LineOverlay) (height : Height) (s : Session) (w : Int)
    (hc : s.container = some w) :
    chartEffect data markers lines height s =
      ({ container := some w, chartRef := some s.runs,
         charts := (match s.chartRef with
            | some k => s.charts.filter (fun c : Chart => decide (c.id ≠ k))
            | none => s.charts) ++ [buildChart s.runs w data markers lines height],
         listeners := s.listeners ++ [s.runs], runs := s.runs + 1 }, some s.runs) := by
  unfold chartEffect
  rw [hc]

/-- An effect run on a session whose container ref is empty does nothing. -/
theorem chartEffect_detached (data : Option (List Candle)) (markers : List Marker)
    (lines : List LineOverlay) (height : Height) (s : Session) (hc : s.container = none) :
    chartEffect data markers lines height s = (s, none) := by
  unfold chartEffect
  rw [hc]

/-- A load followed by a reload, on a well-formed session with an attached
container: the first load's chart and listener are gone, the second load's are
there, and nothing else has changed. -/
theorem chartReload_chartEffect (d1 d2 : Option (List Candle)) (m1 m2 : List Marker)
    (l1 l2 : List LineOverlay) (h1 h2 : Height) (s : Session) (w : Int)
    (hwf : s.wf = true) (hc : s.container = some w) :
    chartReload d2 m2 l2 h2 (chartEffect d1 m1 l1 h1 s) =
      ({ container := some w, chartRef := some (s.runs + 1),
         charts := (match s.chartRef with
            | some k => s.charts.filter (fun c : Chart => decide (c.id ≠ k))
            | none => s.charts) ++ [buildChart (s.runs + 1) w d2 m2 l2 h2],
         listeners := s.listeners ++ [s.runs + 1], runs := s.runs + 2 }, some (s.runs + 1)) := by
  have hk := kept_lt s hwf
  have hl := ((Session.wf_iff s).1 hwf).2
  rw [chartEffect_attached d1 m1 l1 h1 s w hc]
  unfold chartReload chartCleanup
  simp only
  have hid : (buildChart s.runs w d1 m1 l1 h1).id = s.runs := by rw [buildChart_eq]
  rw [List.filter_append, List.filter_append, filter_id_ne_of_lt _ _ hk, filter_ne_of_lt _ _ hl]
  simp only [List.filter_cons, List.filter_nil, hid, ne_eq, not_true_eq_false, decide_False,
    Bool.false_eq_true, if_false, List.append_nil]
  rw [chartEffect_attached d2 m2 l2 h2 _ w rfl]

/-- The chart an effect run creates is the one `chartRef.current` refers to. -/
theorem current_after (kept : List Chart) (n : Nat) (c : Chart) (w : Option Int)
    (ls : List Nat) (r : Nat) (hk : ∀ x ∈ kept, x.id < n) (hc : c.id = n) :
    Session.current { container := w, chartRef := some n, charts := kept ++ [c],
                      listeners := ls, runs := r } = some c := by
  unfold Session.current
  simp only
  rw [List.find?_append]
  have hnone : kept.find? (fun c => decide (c.id = n)) = none := by
    rw [List.find?_eq_none]
    intro x hx
    have := hk x hx
    simp
    omega
  rw [hnone]
  simp [hc]

/-! ## Overlay builder and renderer: further claims -/

/-- C11: a series line in the lines built for a trade carries exactly
`trade.trailing_stop_line` as its points, a present path yields exactly that one
series line, and the chart the renderer builds from these lines (whatever the
candles, markers and size) has line series whose point sequences are exactly
that path, unchanged; for any lines list the renderer hands each series entry's
points unchanged to the line series it creates. -/
theorem C11_series_line_verbatim (trade : Trade) :
    (∀ d color, LineOverlay.series d color ∈ buildLines trade →
      trade.trailing_stop_line = some d) ∧
    (∀ d, trade.trailing_stop_line = some d →
      (buildLines trade).filter LineOverlay.isSeries
        = [LineOverlay.series d "rgba(255, 12, 12, 0.8)"]) ∧
    (∀ id w data markers height,
      (buildChart id w data markers (buildLines trade) height).lineSeries.map LineSeries.data
        = trade.trailing_stop_line.toList) ∧
    (∀ id w data markers height (lines : List LineOverlay),
      (buildChart id w data markers lines height).lineSeries.map LineSeries.data
        = lines.filterMap (fun l => match l with
            | LineOverlay.series d _ => some d
            | LineOverlay.price _ _ _ => none)) := by
  have hgen : ∀ lines : List LineOverlay,
      (lines.filterMap LineOverlay.lineSeries?).map LineSeries.data
        = lines.filterMap (fun l => match l with
            | LineOverlay.series d _ => some d
            | LineOverlay.price _ _ _ => none) := by
    intro lines
    induction lines with
    | nil => rfl
    | cons l ls ih =>
      cases l with
      | price p c t => simpa [List.filterMap_cons, LineOverlay.lineSeries?] using ih
      | series d c => simpa [List.filterMap_cons, LineOverlay.lineSeries?] using ih
  have hfilter : (buildLines trade).filterMap (fun l => match l with
        | LineOverlay.series d _ => some d
        | LineOverlay.price _ _ _ => none) = trade.trailing_stop_line.toList := by
    unfold buildLines
    cases trade.stop_loss <;> cases trade.target <;> cases trade.trailing_stop_line <;>
      simp [List.filterMap_append, List.filterMap_cons] <;> split <;> simp
  refine ⟨?_, ?_, ?_, ?_⟩
  · intro d color h
    rcases (mem_buildLines trade _).1 h with ⟨s, -, -, h⟩ | ⟨t, -, -, h⟩ | ⟨d2, hd, h⟩
    · cases h
    · cases h
    · simp only [LineOverlay.series.injEq] at h
      rw [h.1]; exact hd
  · intro d hd
    unfold buildLines
    rw [hd]
    cases trade.stop_loss <;> cases trade.target <;>
      simp [List.filter_append, List.filter_cons, LineOverlay.isSeries] <;>
      split <;> simp [LineOverlay.isSeries]
  · intro id w data markers height
    rw [buildChart_eq]
    simp only
    rw [hgen, hfilter]
  · intro id w data markers height lines
    rw [buildChart_eq]
    simp only
    rw [hgen]

/-- Witness for C11 on `trailTrade`: the two points of its path reach the line
series as they are. -/
theorem C11_series_line_verbatim_witness :
    (buildChart 0 800 trailTrade.candles (buildMarkers trailTrade) (buildLines trailTrade)
        (Height.css "100%")).lineSeries.map LineSeries.data
      = [[⟨100, 95⟩, ⟨160, 96⟩]] ∧
    (buildLines trailTrade).filter LineOverlay.isSeries
      = [LineOverlay.series [⟨100, 95⟩, ⟨160, 96⟩] "rgba(255, 12, 12, 0.8)"] :=
  ⟨(C11_series_line_verbatim trailTrade).2.2.1 0 800 trailTrade.candles
      (buildMarkers trailTrade) (Height.css "100%"),
   (C11_series_line_verbatim trailTrade).2.1 _ rfl⟩

/-- The entry block pushes nothing or one below-bar marker. -/
theorem entryMarkers_cases (trade : Trade) :
    entryMarkers trade = [] ∨
    ∃ e : Marker, entryMarkers trade = [e] ∧ e.position = "belowBar" := by
  cases h : entryMarkers trade with
  | nil => exact Or.inl rfl
  | cons e es =>
    right
    have hlen := entryMarkers_length_le trade
    rw [h] at hlen
    have hes : es = [] := by
      cases es with
      | nil => rfl
      | cons x xs => simp at hlen
    subst hes
    have hm : e ∈ entryMarkers trade := by rw [h]; simp
    obtain ⟨ts, c, -, -, -, rfl⟩ := (mem_entryMarkers trade e).1 hm
    exact ⟨_, rfl, rfl⟩

/-- The exit block pushes nothing or one above-bar marker. -/
theorem exitMarkers_cases (trade : Trade) :
    exitMarkers trade = [] ∨
    ∃ x : Marker, exitMarkers trade = [x] ∧ x.position = "aboveBar" := by
  cases h : exitMarkers trade with
  | nil => exact Or.inl rfl
  | cons e es =>
    right
    have hlen := exitMarkers_length_le trade
    rw [h] at hlen
    have hes : es = [] := by
      cases es with
      | nil => rfl
      | cons x xs => simp at hlen
    subst hes
    have hm : e ∈ exitMarkers trade := by rw [h]; simp
    obtain ⟨ts, c, -, -, -, rfl⟩ := (mem_exitMarkers trade e).1 hm
    exact ⟨_, rfl, rfl⟩

/-- C12: the markers list is a subsequence of [entry marker, exit marker] (a
below-bar marker followed by an above-bar one), the lines list is a subsequence
of [stop-loss price line, target price line, trailing-stop series line] in that
order; hence there are at most 2 markers and at most 3 lines. -/
theorem C12_insertion_order (trade : Trade) :
    (∃ e x : Marker, e.position = "belowBar" ∧ x.position = "aboveBar" ∧
      (buildMarkers trade).Sublist [e, x]) ∧
    (buildLines trade).Sublist
      [LineOverlay.price (trade.stop_loss.getD 0) "#ef5350" "SL",
       LineOverlay.price (trade.target.getD 0) "#26a69a" "TP",
       LineOverlay.series (trade.trailing_stop_line.getD []) "rgba(255, 12, 12, 0.8)"] ∧
    (buildMarkers trade).length ≤ 2 ∧ (buildLines trade).length ≤ 3 := by
  have hlines : (buildLines trade).Sublist
      [LineOverlay.price (trade.stop_loss.getD 0) "#ef5350" "SL",
       LineOverlay.price (trade.target.getD 0) "#26a69a" "TP",
       LineOverlay.series (trade.trailing_stop_line.getD []) "rgba(255, 12, 12, 0.8)"] := by
    have h3 : (match trade.trailing_stop_line with
        | some d => [LineOverlay.series d "rgba(255, 12, 12, 0.8)"]
        | none => []).Sublist
        [LineOverlay.series (trade.trailing_stop_line.getD []) "rgba(255, 12, 12, 0.8)"] := by
      cases trade.trailing_stop_line with
      | none => exact List.nil_sublist _
      | some d => exact List.Sublist.refl _
    have h2 : (match trade.target with
        | some t => if truthyNum (some t) then [LineOverlay.price t "#26a69a" "TP"] else []
        | none => []).Sublist [LineOverlay.price (trade.target.getD 0) "#26a69a" "TP"] := by
      cases trade.target with
      | none => exact List.nil_sublist _
      | some t =>
        simp only [Option.getD_some]
        split
        · exact List.Sublist.refl _
        · exact List.nil_sublist _
    have h1 : (match trade.stop_loss with
        | some s => if truthyNum (some s) then [LineOverlay.price s "#ef5350" "SL"] else []
        | none => []).Sublist [LineOverlay.price (trade.stop_loss.getD 0) "#ef5350" "SL"] := by
      cases trade.stop_loss with
      | none => exact List.nil_sublist _
      | some t =>
        simp only [Option.getD_some]
        split
        · exact List.Sublist.refl _
        · exact List.nil_sublist _
    unfold buildLines
    exact (h1.append h2).append h3
  have hmarkers : ∃ e x : Marker, e.position = "belowBar" ∧ x.position = "aboveBar" ∧
      (buildMarkers trade).Sublist [e, x] := by
    unfold buildMarkers
    rcases entryMarkers_cases trade with he | ⟨e, he, hpe⟩ <;>
      rcases exitMarkers_cases trade with hx | ⟨x, hx, hpx⟩
    · exact ⟨⟨0, "belowBar", "", "", ⟨"", none⟩⟩, ⟨0, "aboveBar", "", "", ⟨"", none⟩⟩, rfl, rfl,
        by rw [he, hx]; exact List.nil_sublist _⟩
    · exact ⟨⟨0, "belowBar", "", "", ⟨"", none⟩⟩, x, rfl, hpx,
        by rw [he, hx]; exact List.Sublist.cons _ (List.Sublist.refl _)⟩
    · exact ⟨e, ⟨0, "aboveBar", "", "", ⟨"", none⟩⟩, hpe, rfl,
        by rw [he, hx]; exact List.Sublist.cons₂ _ (List.nil_sublist _)⟩
    · exact ⟨e, x, hpe, hpx, by rw [he, hx]; exact List.Sublist.refl _⟩
  refine ⟨hmarkers, hlines, ?_, ?_⟩
  · obtain ⟨e, x, -, -, h⟩ := hmarkers
    simpa using h.length_le
  · simpa using hlines.length_le

/-- C13: the lines built for a trade depend only on `stop_loss`, `target` and
`trailing_stop_line`; the markers only on `entry_ts`, `entry_price`, `exit_ts`,
`exit_price` and `candles`. An exit that aligns yields its marker whatever
happens to the entry (it is the only marker when the entry does not align), and
an entry that aligns yields its marker whatever happens to the exit. -/
theorem C13_rules_independent (t1 t2 : Trade) :
    (t1.stop_loss = t2.stop_loss → t1.target = t2.target →
      t1.trailing_stop_line = t2.trailing_stop_line → buildLines t1 = buildLines t2) ∧
    (t1.entry_ts = t2.entry_ts → t1.entry_price = t2.entry_price →
      t1.exit_ts = t2.exit_ts → t1.exit_price = t2.exit_price → t1.candles = t2.candles →
      buildMarkers t1 = buildMarkers t2) ∧
    (∀ ts c, t1.exit_ts = some ts → ts ≠ 0 → findClosestCandle t1.candles ts = some c →
      ({ time := c.time, position := "aboveBar", color := "#FF9800", shape := "arrowDown",
         text := { literal := "Exit @ ", value := t1.exit_price } } : Marker)
        ∈ buildMarkers t1 ∧
      ((∀ ets, t1.entry_ts = some ets → findClosestCandle t1.candles ets = none) →
        buildMarkers t1 =
          [{ time := c.time, position := "aboveBar", color := "#FF9800", shape := "arrowDown",
             text := { literal := "Exit @ ", value := t1.exit_price } }])) ∧
    (∀ ts c, t1.entry_ts = some ts → ts ≠ 0 → findClosestCandle t1.candles ts = some c →
      ({ time := c.time, position := "belowBar", color := "#2196F3", shape := "arrowUp",
         text := { literal := "Entry @ ", value := t1.entry_price } } : Marker)
        ∈ buildMarkers t1 ∧
      ((∀ xts, t1.exit_ts = some xts → findClosestCandle t1.candles xts = none) →
        buildMarkers t1 =
          [{ time := c.time, position := "belowBar", color := "#2196F3", shape := "arrowUp",
             text := { literal := "Entry @ ", value := t1.entry_price } }])) := by
  refine ⟨?_, ?_, ?_, ?_⟩
  · intro h1 h2 h3
    unfold buildLines
    rw [h1, h2, h3]
  · intro h1 h2 h3 h4 h5
    unfold buildMarkers entryMarkers exitMarkers
    rw [h1, h2, h3, h4, h5]
  · intro ts c hts h0 hc
    have hx : exitMarkers t1 =
        [{ time := c.time, position := "aboveBar", color := "#FF9800", shape := "arrowDown",
           text := { literal := "Exit @ ", value := t1.exit_price } }] := by
      unfold exitMarkers
      rw [hts]
      simp [truthyNum, h0, hc]
    refine ⟨?_, ?_⟩
    · unfold buildMarkers
      rw [hx]
      simp
    · intro hmiss
      have he : entryMarkers t1 = [] := by
        unfold entryMarkers
        cases hen : t1.entry_ts with
        | none => rfl
        | some ets =>
          simp only [hmiss ets hen]
          split <;> rfl
      unfold buildMarkers
      rw [he, hx]
      rfl
  · intro ts c hts h0 hc
    have he : entryMarkers t1 =
        [{ time := c.time, position := "belowBar", color := "#2196F3", shape := "arrowUp",
           text := { literal := "Entry @ ", value := t1.entry_price } }] := by
      unfold entryMarkers
      rw [hts]
      simp [truthyNum, h0, hc]
    refine ⟨?_, ?_⟩
    · unfold buildMarkers
      rw [he]
      simp
    · intro hmiss
      have hx : exitMarkers t1 = [] := by
        unfold exitMarkers
        cases hen : t1.exit_ts with
        | none => rfl
        | some xts =>
          simp only [hmiss xts hen]
          split <;> rfl
      unfold buildMarkers
      rw [he, hx]
      rfl

/-- Witness for C13: `exitOnlyTrade` and Scenario A agree on the three line
fields and build the same lines; the entry of `exitOnlyTrade` misses and its
exit marker is still there. -/
theorem C13_rules_independent_witness :
    buildLines exitOnlyTrade = buildLines scenarioA ∧
    findClosestCandle exitOnlyTrade.candles 1000 = none ∧
    buildMarkers exitOnlyTrade =
      [{ time := 100, position := "aboveBar", color := "#FF9800", shape := "arrowDown",
         text := { literal := "Exit @ ", value := some 6 } }] :=
  ⟨(C13_rules_independent exitOnlyTrade scenarioA).1 rfl rfl rfl, by decide,
   ((C13_rules_independent exitOnlyTrade scenarioA).2.2.1 130 ⟨100, 1, 1, 1, 1⟩ rfl
      (by decide) (by decide)).2
     (fun ets h => by
        have h1000 : ets = 1000 := by
          have : some (1000 : Int) = some ets := h
          exact (Option.some.inj this).symm
        subst h1000
        decide)⟩

/-! ## Load cycle: auxiliary facts -/

/-- The `try` block in live mode. -/
theorem loadBody_live (symbol : String) (tradeData : Option Trade) (live : Fetched LiveChart)
    (allData : Fetched (Option (List Trade))) :
    loadBody symbol "live" tradeData live allData =
      match live with
      | Fetched.rejected msg => Except.error msg
      | Fetched.resolved data =>
        match data.error with
        | some err =>
          if err ≠ "" then Except.error err
          else Except.ok (some { candles := data.candles, markers := [], lines := [] })
        | none => Except.ok (some { candles := data.candles, markers := [], lines := [] }) := by
  unfold loadBody
  simp only [if_true]
  cases live with
  | rejected msg => rfl
  | resolved data =>
    simp only
    cases data.error with
    | none => rfl
    | some err => simp [truthyStr]

/-- The `try` block in backtest mode. -/
theorem loadBody_backtest (symbol : String) (tradeData : Option Trade)
    (live : Fetched LiveChart) (allData : Fetched (Option (List Trade))) :
    loadBody symbol "backtest" tradeData live allData =
      match lookupTrade symbol tradeData allData with
      | Except.error msg => Except.error msg
      | Except.ok (some trade) => Except.ok (some (buildChartData trade))
      | Except.ok none => Except.error "Trade data not found for visualization" := by
  have hne : ¬ ("backtest" = "live") := by decide
  unfold loadBody
  simp only [hne, if_false, if_true]

/-- The `try` block in any other mode does nothing. -/
theorem loadBody_other (symbol mode : String) (tradeData : Option Trade)
    (live : Fetched LiveChart) (allData : Fetched (Option (List Trade)))
    (h1 : mode ≠ "live") (h2 : mode ≠ "backtest") :
    loadBody symbol mode tradeData live allData = Except.ok none := by
  unfold loadBody
  simp [h1, h2]

/-- The first element satisfying a test: where `find?` finds it. -/
theorem find?_first (symbol : String) (trades : List Trade) :
    (∃ t i, trades.find? (fun t => decide (t.symbol = symbol)) = some t ∧
      trades[i]? = some t ∧ t.symbol = symbol ∧
      ∀ (j : Nat) (u : Trade), j < i → trades[j]? = some u → u.symbol ≠ symbol) ∨
    (trades.find? (fun t => decide (t.symbol = symbol)) = none ∧
      ∀ t ∈ trades, t.symbol ≠ symbol) := by
  induction trades with
  | nil => right; simp
  | cons a as ih =>
    by_cases ha : a.symbol = symbol
    · left
      refine ⟨a, 0, by simp [List.find?_cons, ha], by simp, ha, ?_⟩
      intro j u hj
      omega
    · rcases ih with ⟨t, i, hf, hi, hts, hmin⟩ | ⟨hf, hall⟩
      · left
        refine ⟨t, i + 1, by simp [List.find?_cons, ha, hf], by simpa using hi, hts, ?_⟩
        intro j u hj hu
        cases j with
        | zero =>
          have : a = u := by simpa using hu
          rw [← this]; exact ha
        | succ k =>
          exact hmin k u (by omega) (by simpa using hu)
      · right
        refine ⟨by simp [List.find?_cons, ha, hf], ?_⟩
        intro t ht
        rcases List.mem_cons.1 ht with h | h
        · rw [h]; exact ha
        · exact hall t h

/-! ## Load cycle: claims -/

/-- C14: in live mode, when the candle fetch resolves with a response that
carries no (non-empty) `error`, the cycle ends with the chart data made of the
fetched `candles` unchanged, an empty marker list and an empty line list,
whatever `tradeData`, `symbol` and the previous state are. -/
theorem C14_live_mode_chart_data (symbol : String) (tradeData : Option Trade)
    (data : LiveChart) (allData : Fetched (Option (List Trade))) (st : ModalState)
    (hok : ∀ e, data.error = some e → e = "") :
    loadData symbol "live" tradeData (Fetched.resolved data) allData st =
      { loading := false, error := none,
        chartData := { candles := data.candles, markers := [], lines := [] } } := by
  rw [loadData_eq, loadBody_live]
  simp only
  cases he : data.error with
  | none => rfl
  | some e =>
    have := hok e he
    subst this
    simp

/-- Witness for C14: a live response with one candle, a trade being passed as
`tradeData` all the same. -/
theorem C14_live_mode_chart_data_witness :
    loadData "ABC" "live" (some scenarioC)
        (Fetched.resolved { error := none, candles := some [⟨100, 1, 1, 1, 1⟩] })
        (Fetched.rejected "") initialState =
      { loading := false, error := none,
        chartData := { candles := some [⟨100, 1, 1, 1, 1⟩], markers := [], lines := [] } } :=
  C14_live_mode_chart_data "ABC" (some scenarioC)
    { error := none, candles := some [⟨100, 1, 1, 1, 1⟩] } (Fetched.rejected "") initialState
    (fun e h => by cases h)

/-- C15: in backtest mode a trade passed by the caller is the one used, without
awaiting the trade list (whatever the list would have been, the cycle shows that
trade); with no trade passed the list is awaited exactly when the symbol is not
empty, and for every list so fetched the trade used is the element of least
index whose symbol equals the requested symbol, none being used when no element
matches. -/
theorem C15_trade_selection (symbol : String) (live : Fetched LiveChart)
    (allData : Fetched (Option (List Trade))) (st : ModalState) :
    (∀ trade : Trade,
      fetchesBacktestChart symbol (some trade) = false ∧
      lookupTrade symbol (some trade) allData = Except.ok (some trade) ∧
      loadData symbol "backtest" (some trade) live allData st =
        { loading := false, error := none, chartData := buildChartData trade }) ∧
    (fetchesBacktestChart symbol none = true ↔ symbol ≠ "") ∧
    (∀ trades : List Trade, fetchesBacktestChart symbol none = true →
      (∃ t i, lookupTrade symbol none (Fetched.resolved (some trades)) = Except.ok (some t) ∧
        trades[i]? = some t ∧ t.symbol = symbol ∧
        (∀ (j : Nat) (u : Trade), j < i → trades[j]? = some u → u.symbol ≠ symbol) ∧
        loadData symbol "backtest" none live (Fetched.resolved (some trades)) st =
          { loading := false, error := none, chartData := buildChartData t }) ∨
      (lookupTrade symbol none (Fetched.resolved (some trades)) = Except.ok none ∧
        ∀ t ∈ trades, t.symbol ≠ symbol)) := by
  refine ⟨?_, ?_, ?_⟩
  · intro trade
    refine ⟨rfl, rfl, ?_⟩
    rw [loadData_eq, loadBody_backtest]
    rfl
  · simp [fetchesBacktestChart, truthyStr]
  · intro trades hfetch
    have hsym : symbol ≠ "" := by
      simpa [fetchesBacktestChart, truthyStr] using hfetch
    have hlook : lookupTrade symbol none (Fetched.resolved (some trades))
        = Except.ok (trades.find? (fun t => decide (t.symbol = symbol))) := by
      simp [lookupTrade, truthyStr, hsym]
    rcases find?_first symbol trades with ⟨t, i, hf, hi, hts, hmin⟩ | ⟨hf, hall⟩
    · left
      refine ⟨t, i, by rw [hlook, hf], hi, hts, hmin, ?_⟩
      rw [loadData_eq, loadBody_backtest, hlook, hf]
    · right
      exact ⟨by rw [hlook, hf], hall⟩

/-- Witness for C15: of two trades with symbol `ABC` in the list, the first one
(at index 1, after a trade of another symbol) is used. -/
theorem C15_trade_selection_witness :
    twoTradesSameSymbol[1]? = some scenarioA ∧ twoTradesSameSymbol[2]? = some scenarioB ∧
    scenarioA.symbol = scenarioB.symbol ∧
    lookupTrade "ABC" none (Fetched.resolved (some twoTradesSameSymbol))
      = Except.ok (some scenarioA) ∧
    fetchesBacktestChart "ABC" none = true ∧
    fetchesBacktestChart "ABC" (some scenarioB) = false :=
  ⟨by decide, by decide, rfl, rfl,
   (C15_trade_selection "ABC" (Fetched.rejected "") (Fetched.rejected "") initialState).2.1.2
     (by decide),
   ((C15_trade_selection "ABC" (Fetched.rejected "") (Fetched.rejected "") initialState).1
     scenarioB).1⟩

/-- C16: in backtest mode with no trade passed, when the awaited response holds
no trade whose symbol equals the requested symbol (or is not a list at all), the
cycle ends with `loading = false`, the error set to
`Trade data not found for visualization`, the chart data exactly as it was
before, and the chart view not rendered. -/
theorem C16_trade_not_found (symbol : String) (live : Fetched LiveChart)
    (response : Option (List Trade)) (st : ModalState)
    (hno : ∀ trades, response = some trades → ∀ t ∈ trades, t.symbol ≠ symbol) :
    loadData symbol "backtest" none live (Fetched.resolved response) st =
      { loading := false, error := some "Trade data not found for visualization",
        chartData := st.chartData } ∧
    rendersChart (loadData symbol "backtest" none live (Fetched.resolved response) st)
      = false := by
  have hlook : lookupTrade symbol none (Fetched.resolved response) = Except.ok none := by
    unfold lookupTrade
    simp only
    split
    · cases response with
      | none => rfl
      | some trades =>
        simp only
        rw [List.find?_eq_none.2]
        intro t ht
        simpa using hno trades rfl t ht
    · rfl
  have hload : loadData symbol "backtest" none live (Fetched.resolved response) st =
      { loading := false, error := some "Trade data not found for visualization",
        chartData := st.chartData } := by
    rw [loadData_eq, loadBody_backtest, hlook]
  refine ⟨hload, ?_⟩
  rw [hload]
  simp [rendersChart, truthyStr]

/-- Witness for C16 (Scenario D): the symbol `NOPE` is not in the trade list. -/
theorem C16_trade_not_found_witness :
    loadData "NOPE" "backtest" none (Fetched.rejected "") (Fetched.resolved (some twoTradesSameSymbol))
        initialState =
      { loading := false, error := some "Trade data not found for visualization",
        chartData := initialState.chartData } ∧
    rendersChart (loadData "NOPE" "backtest" none (Fetched.rejected "")
      (Fetched.resolved (some twoTradesSameSymbol)) initialState) = false :=
  C16_trade_not_found "NOPE" (Fetched.rejected "") (some twoTradesSameSymbol) initialState
    (fun trades h => by
      have : trades = twoTradesSameSymbol := (Option.some.inj h).symm
      subst this
      decide)

/-- C17, as stated, fails: the live response with `error` the empty string is
of the error variant, yet the cycle ends without error and replaces the chart
data (by the response's absent `candles` and no overlay). -/
theorem C17_counterexample_empty_error_string :
    (loadData "ABC" "live" none (Fetched.resolved { error := some "", candles := none })
        (Fetched.rejected "") initialState).error = none ∧
    (loadData "ABC" "live" none (Fetched.resolved { error := some "", candles := none })
        (Fetched.rejected "") initialState).chartData
      = { candles := none, markers := [], lines := [] } ∧
    (loadData "ABC" "live" none (Fetched.resolved { error := some "", candles := none })
        (Fetched.rejected "") initialState).chartData ≠ initialState.chartData := by
  refine ⟨by decide, by decide, by decide⟩

/-- C17, amended: in live mode, for every response whose `error` is a non-empty
string `s`, and for every fetch that rejects with an error of message `s` (any
string), the cycle ends with `loading = false`, the error equal to `s`, and the
chart data exactly as it was before. -/
theorem C17_live_mode_errors (symbol : String) (tradeData : Option Trade)
    (allData : Fetched (Option (List Trade))) (st : ModalState) (s : String) :
    (∀ data : LiveChart, data.error = some s → s ≠ "" →
      loadData symbol "live" tradeData (Fetched.resolved data) allData st =
        { loading := false, error := some s, chartData := st.chartData }) ∧
    loadData symbol "live" tradeData (Fetched.rejected s) allData st =
      { loading := false, error := some s, chartData := st.chartData } := by
  refine ⟨?_, ?_⟩
  · intro data he hs
    rw [loadData_eq, loadBody_live]
    simp only [he, hs, ne_eq, not_false_eq_true, if_true]
  · rw [loadData_eq, loadBody_live]

/-- Witness for C17: the response `{ error: "no data" }` on a modal that shows a
chart. -/
theorem C17_live_mode_errors_witness :
    loadData "ABC" "live" none (Fetched.resolved { error := some "no data", candles := none })
        (Fetched.rejected "") { initialState with chartData := buildChartData scenarioA } =
      { loading := false, error := some "no data", chartData := buildChartData scenarioA } :=
  (C17_live_mode_errors "ABC" none (Fetched.rejected "")
    { initialState with chartData := buildChartData scenarioA } "no data").1
    { error := some "no data", candles := none } rfl (by decide)

/-- C18, as stated, fails: with a mode that is neither `live` nor `backtest` the
cycle ends with the error unset although nothing was fetched and the chart data
was not replaced (the `try` block makes no `setChartData` call). -/
theorem C18_counterexample_other_mode :
    (loadData "ABC" "paper" none (Fetched.rejected "down") (Fetched.rejected "down")
        initialState).error = none ∧
    loadBody "ABC" "paper" none (Fetched.rejected "down") (Fetched.rejected "down")
      = Except.ok none ∧
    (loadData "ABC" "paper" none (Fetched.rejected "down") (Fetched.rejected "down")
        initialState).chartData = initialState.chartData := by
  refine ⟨by decide, rfl, by decide⟩

/-- C18, amended: a load cycle first sets `loading = true` and clears the error,
and always ends with `loading = false`. In live and backtest mode it ends with
the error unset exactly when the fetch and the trade lookup succeeded, which is
exactly when the chart data was replaced; otherwise the error is set and the
chart data is as before, so it never ends with both a replaced chart data and an
error. In any other mode it ends with the error unset and the chart data as
before. -/
theorem C18_load_cycle_status (symbol mode : String) (tradeData : Option Trade)
    (live : Fetched LiveChart) (allData : Fetched (Option (List Trade))) (st : ModalState) :
    ((loadBegin st).loading = true ∧ (loadBegin st).error = none ∧
      (loadBegin st).chartData = st.chartData) ∧
    (loadData symbol mode tradeData live allData st).loading = false ∧
    (mode = "live" ∨ mode = "backtest" →
      ((loadData symbol mode tradeData live allData st).error = none ↔
        (mode = "live" ∧ ∃ data, live = Fetched.resolved data ∧
          ∀ e, data.error = some e → e = "") ∨
        (mode = "backtest" ∧ ∃ trade,
          lookupTrade symbol tradeData allData = Except.ok (some trade))) ∧
      ((loadData symbol mode tradeData live allData st).error = none ↔
        ∃ cd, loadBody symbol mode tradeData live allData = Except.ok (some cd) ∧
          (loadData symbol mode tradeData live allData st).chartData = cd)) ∧
    ((loadData symbol mode tradeData live allData st).error ≠ none →
      (loadData symbol mode tradeData live allData st).chartData = st.chartData ∧
      ∀ cd, loadBody symbol mode tradeData live allData ≠ Except.ok (some cd)) ∧
    (mode ≠ "live" → mode ≠ "backtest" →
      loadData symbol mode tradeData live allData st =
        { loading := false, error := none, chartData := st.chartData }) := by
  have hne : ¬ ("backtest" = "live") := by decide
  refine ⟨⟨rfl, rfl, rfl⟩, ?_, ?_, ?_, ?_⟩
  · rw [loadData_eq]
    cases h : loadBody symbol mode tradeData live allData with
    | error msg => rfl
    | ok r => cases r <;> rfl
  · intro hmode
    rw [loadData_eq]
    rcases hmode with hm | hm
    · subst hm
      rw [loadBody_live]
      cases live with
      | rejected msg => simp
      | resolved data =>
        cases he : data.error with
        | none => simp [he]
        | some e =>
          by_cases h0 : e = ""
          · simp [he, h0]
          · simp [he, h0]
    · subst hm
      rw [loadBody_backtest]
      cases hl : lookupTrade symbol tradeData allData with
      | error msg => simp [hne]
      | ok t =>
        cases t with
        | none => simp [hne]
        | some trade => simp [hne]
  · intro herr
    rw [loadData_eq] at herr ⊢
    cases h : loadBody symbol mode tradeData live allData with
    | error msg => simp
    | ok r =>
      rw [h] at herr
      cases r <;> simp at herr
  · intro h1 h2
    rw [loadData_eq, loadBody_other symbol mode tradeData live allData h1 h2]

/-- Witness for C18: a backtest cycle on Scenario A ends ready with the chart
data replaced; the same cycle with no trade to find ends in error with the chart
data kept. -/
theorem C18_load_cycle_status_witness :
    ((loadData "ABC" "backtest" (some scenarioA) (Fetched.rejected "") (Fetched.rejected "")
        initialState).error = none ↔
      ("backtest" = "live" ∧ ∃ data, (Fetched.rejected "" : Fetched LiveChart)
          = Fetched.resolved data ∧ ∀ e, data.error = some e → e = "") ∨
      ("backtest" = "backtest" ∧ ∃ trade,
        lookupTrade "ABC" (some scenarioA) (Fetched.rejected "") = Except.ok (some trade))) ∧
    (loadData "ABC" "backtest" none (Fetched.rejected "") (Fetched.rejected "down")
        initialState).error = some "down" ∧
    (loadData "ABC" "backtest" none (Fetched.rejected "") (Fetched.rejected "down")
        initialState).chartData = initialState.chartData :=
  ⟨((C18_load_cycle_status "ABC" "backtest" (some scenarioA) (Fetched.rejected "")
      (Fetched.rejected "") initialState).2.2.1 (Or.inr rfl)).1,
   by decide,
   ((C18_load_cycle_status "ABC" "backtest" none (Fetched.rejected "")
      (Fetched.rejected "down") initialState).2.2.2.1 (by decide)).1⟩

/-! ## Chart session: claims -/

/-- A fresh session is well-formed. -/
theorem Session.initial_wf (container : Option Int) : (Session.initial container).wf = true := by
  simp [Session.initial, Session.wf]

/-- An effect run keeps the session well-formed. -/
theorem chartEffect_wf (data : Option (List Candle)) (markers : List Marker)
    (lines : List LineOverlay) (height : Height) (s : Session) (hwf : s.wf = true) :
    (chartEffect data markers lines height s).1.wf = true := by
  cases hc : s.container with
  | none => rw [chartEffect_detached _ _ _ _ s hc]; exact hwf
  | some w =>
    rw [chartEffect_attached _ _ _ _ s w hc, Session.wf_iff]
    have hk := kept_lt s hwf
    have hl := ((Session.wf_iff s).1 hwf).2
    constructor
    · intro c hcm
      rcases List.mem_append.1 hcm with h | h
      · exact Nat.lt_succ_of_lt (hk c h)
      · have : c = buildChart s.runs w data markers lines height := by simpa using h
        rw [this, buildChart_eq]
        exact Nat.lt_succ_self _
    · intro h hh
      rcases List.mem_append.1 hh with h1 | h1
      · exact Nat.lt_succ_of_lt (hl h h1)
      · have : h = s.runs := by simpa using h1
        rw [this]
        exact Nat.lt_succ_self _

/-- A cleanup keeps the session well-formed. -/
theorem chartCleanup_wf (run : Nat) (s : Session) (hwf : s.wf = true) :
    (chartCleanup run s).wf = true := by
  obtain ⟨h1, h2⟩ := (Session.wf_iff s).1 hwf
  unfold chartCleanup
  cases hk : s.chartRef with
  | none =>
    rw [Session.wf_iff]
    exact ⟨h1, fun h hh => h2 h (List.mem_of_mem_filter hh)⟩
  | some k =>
    rw [Session.wf_iff]
    exact ⟨fun c hc => h1 c (List.mem_of_mem_filter hc),
      fun h hh => h2 h (List.mem_of_mem_filter hh)⟩

/-- Forgetting the identity of a built chart. -/
theorem buildChart_content (id : Nat) (w : Int) (data : Option (List Candle))
    (markers : List Marker) (lines : List LineOverlay) (height : Height) :
    (buildChart id w data markers lines height).content
      = buildChart 0 w data markers lines height := by
  rw [buildChart_eq, buildChart_eq]
  rfl

/-- C19: on every well-formed session, running the load effect a second time
with the same arguments (after the cleanup of the first run) leaves what is
drawn as one run does: the same charts up to the identity of the chart object,
the same number of resize listeners, and the chart in use holds one candlestick
series with the candles and the one marker batch, and one rendered line per line
entry; there is one chart of that identity. -/
theorem C19_load_idempotent (s : Session) (hwf : s.wf = true) (data : Option (List Candle))
    (markers : List Marker) (lines : List LineOverlay) (height : Height) :
    (chartReload data markers lines height (chartEffect data markers lines height s)).1.charts.map
        Chart.content
      = (chartEffect data markers lines height s).1.charts.map Chart.content ∧
    (chartReload data markers lines height (chartEffect data markers lines height s)).1.listeners.length
      = (chartEffect data markers lines height s).1.listeners.length ∧
    (chartReload data markers lines height (chartEffect data markers lines height s)).1.current.map
        Chart.content
      = (chartEffect data markers lines height s).1.current.map Chart.content ∧
    (∀ w, s.container = some w →
      ∃ c, (chartReload data markers lines height
              (chartEffect data markers lines height s)).1.current = some c ∧
        c.candlestickSeries.length = 1 ∧
        (∀ cs ∈ c.candlestickSeries, cs.data = data.getD [] ∧ cs.markers = markers ∧
          cs.priceLines.length + c.lineSeries.length = lines.length) ∧
        ((chartReload data markers lines height
            (chartEffect data markers lines height s)).1.charts.filter
          (fun x : Chart => decide (x.id = c.id))).length = 1) := by
  cases hc : s.container with
  | none =>
    rw [chartEffect_detached _ _ _ _ s hc]
    have h2 : chartReload data markers lines height (s, none) = (s, none) := by
      unfold chartReload
      simp only
      exact chartEffect_detached _ _ _ _ s hc
    rw [h2]
    exact ⟨rfl, rfl, rfl, fun w hw => by cases hw⟩
  | some w =>
    have hk := kept_lt s hwf
    rw [chartReload_chartEffect _ _ _ _ _ _ _ _ s w hwf hc, chartEffect_attached _ _ _ _ s w hc]
    simp only
    have hcur2 := current_after _ (s.runs + 1)
      (buildChart (s.runs + 1) w data markers lines height) (some w) (s.listeners ++ [s.runs + 1])
      (s.runs + 2) (fun x hx => Nat.lt_succ_of_lt (hk x hx)) (by rw [buildChart_eq])
    have hcur1 := current_after _ s.runs
      (buildChart s.runs w data markers lines height) (some w) (s.listeners ++ [s.runs])
      (s.runs + 1) hk (by rw [buildChart_eq])
    refine ⟨?_, ?_, ?_, ?_⟩
    · simp only [List.map_append, List.map_cons, List.map_nil, buildChart_content]
    · simp
    · rw [hcur1, hcur2]
      simp only [Option.map_some', buildChart_content]
    · intro w2 _
      refine ⟨_, hcur2, ?_, ?_, ?_⟩
      · rw [buildChart_eq]; rfl
      · intro cs hcs
        rw [buildChart_eq] at hcs ⊢
        simp only [List.mem_singleton] at hcs
        subst hcs
        exact ⟨rfl, rfl, rendered_count lines⟩
      · rw [List.filter_append]
        have hnone : (match s.chartRef with
            | some k => s.charts.filter (fun c : Chart => decide (c.id ≠ k))
            | none => s.charts).filter
              (fun x : Chart => decide (x.id = (buildChart (s.runs + 1) w data markers lines height).id))
            = [] := by
          rw [List.filter_eq_nil_iff]
          intro x hx
          have := hk x hx
          rw [buildChart_eq]
          simp
          omega
        rw [hnone]
        simp

/-- Witness for C19: the chart data of Scenario A loaded twice into a fresh
session with a container 800 pixels wide. -/
theorem C19_load_idempotent_witness :
    (Session.initial (some 800)).wf = true ∧
    (chartReload scenarioA.candles (buildMarkers scenarioA) (buildLines scenarioA)
        (Height.css "100%")
        (chartEffect scenarioA.candles (buildMarkers scenarioA) (buildLines scenarioA)
          (Height.css "100%") (Session.initial (some 800)))).1.charts.map Chart.content
      = (chartEffect scenarioA.candles (buildMarkers scenarioA) (buildLines scenarioA)
          (Height.css "100%") (Session.initial (some 800))).1.charts.map Chart.content :=
  ⟨by decide,
   (C19_load_idempotent (Session.initial (some 800)) (by decide) scenarioA.candles
      (buildMarkers scenarioA) (buildLines scenarioA) (Height.css "100%")).1⟩

/-- C20: on every well-formed session with an attached container, after a load
with arguments `a1` followed by a load with arguments `a2`, the chart in use is
the one built from `a2` alone (one candlestick series with the candles, markers
and price lines of `a2`, the line series of `a2`); the chart and the listener of
the first load are gone; what is drawn is what loading `a2` directly would draw;
the chart in use does not depend on the earlier state or on `a1`; and when the
session owned no chart other than the one its ref pointed to, the chart of `a2`
is the only chart left. -/
theorem C20_load_full_rebuild (s : Session) (hwf : s.wf = true) (w : Int)
    (hc : s.container = some w)
    (d1 d2 : Option (List Candle)) (m1 m2 : List Marker) (l1 l2 : List LineOverlay)
    (h1 h2 : Height) :
    (chartReload d2 m2 l2 h2 (chartEffect d1 m1 l1 h1 s)).1.current
      = some { id := s.runs + 1, width := w, height := h2,
               candlestickSeries :=
                 [{ data := d2.getD [], markers := m2,
                    priceLines := l2.filterMap LineOverlay.priceLine? }],
               lineSeries := l2.filterMap LineOverlay.lineSeries?, fitContent := true } ∧
    (∀ c ∈ (chartReload d2 m2 l2 h2 (chartEffect d1 m1 l1 h1 s)).1.charts, c.id ≠ s.runs) ∧
    s.runs ∉ (chartReload d2 m2 l2 h2 (chartEffect d1 m1 l1 h1 s)).1.listeners ∧
    (chartReload d2 m2 l2 h2 (chartEffect d1 m1 l1 h1 s)).1.charts.map Chart.content
      = (chartEffect d2 m2 l2 h2 s).1.charts.map Chart.content ∧
    (∀ (s2 : Session) (d3 : Option (List Candle)) (m3 : List Marker) (l3 : List LineOverlay)
        (h3 : Height), s2.wf = true → s2.container = some w →
      (chartReload d2 m2 l2 h2 (chartEffect d3 m3 l3 h3 s2)).1.current.map Chart.content
        = (chartReload d2 m2 l2 h2 (chartEffect d1 m1 l1 h1 s)).1.current.map Chart.content) ∧
    ((∀ c ∈ s.charts, s.chartRef = some c.id) →
      (chartReload d2 m2 l2 h2 (chartEffect d1 m1 l1 h1 s)).1.charts
        = [buildChart (s.runs + 1) w d2 m2 l2 h2]) := by
  have hk := kept_lt s hwf
  have hl := ((Session.wf_iff s).1 hwf).2
  have hcur : ∀ (s2 : Session) (d3 : Option (List Candle)) (m3 : List Marker)
      (l3 : List LineOverlay) (h3 : Height), s2.wf = true → s2.container = some w →
      (chartReload d2 m2 l2 h2 (chartEffect d3 m3 l3 h3 s2)).1.current
        = some (buildChart (s2.runs + 1) w d2 m2 l2 h2) := by
    intro s2 d3 m3 l3 h3 hwf2 hc2
    rw [chartReload_chartEffect _ _ _ _ _ _ _ _ s2 w hwf2 hc2]
    exact current_after _ (s2.runs + 1) _ (some w) _ (s2.runs + 2)
      (fun x hx => Nat.lt_succ_of_lt (kept_lt s2 hwf2 x hx)) (by rw [buildChart_eq])
  refine ⟨?_, ?_, ?_, ?_, ?_, ?_⟩
  · rw [hcur s d1 m1 l1 h1 hwf hc, buildChart_eq]
  · rw [chartReload_chartEffect _ _ _ _ _ _ _ _ s w hwf hc]
    intro c hcm
    rcases List.mem_append.1 hcm with h | h
    · exact Nat.ne_of_lt (hk c h)
    · have : c = buildChart (s.runs + 1) w d2 m2 l2 h2 := by simpa using h
      rw [this, buildChart_eq]
      exact Nat.succ_ne_self _
  · rw [chartReload_chartEffect _ _ _ _ _ _ _ _ s w hwf hc]
    intro hmem
    rcases List.mem_append.1 hmem with h | h
    · exact Nat.lt_irrefl _ (hl _ h)
    · simp at h
  · rw [chartReload_chartEffect _ _ _ _ _ _ _ _ s w hwf hc, chartEffect_attached _ _ _ _ s w hc]
    simp only [List.map_append, List.map_cons, List.map_nil, buildChart_content]
  · intro s2 d3 m3 l3 h3 hwf2 hc2
    rw [hcur s d1 m1 l1 h1 hwf hc, hcur s2 d3 m3 l3 h3 hwf2 hc2]
    simp only [Option.map_some', buildChart_content]
  · intro hown
    rw [chartReload_chartEffect _ _ _ _ _ _ _ _ s w hwf hc]
    simp only
    have hkept : (match s.chartRef with
        | some k => s.charts.filter (fun c : Chart => decide (c.id ≠ k))
        | none => s.charts) = [] := by
      cases hr : s.chartRef with
      | none =>
        simp only
        cases hch : s.charts with
        | nil => rfl
        | cons c cs =>
          have := hown c (by rw [hch]; simp)
          rw [hr] at this
          cases this
      | some k =>
        simp only
        rw [List.filter_eq_nil_iff]
        intro c hcm
        have := hown c hcm
        rw [hr] at this
        have hk2 : k = c.id := Option.some.inj this
        simp [hk2]
    rw [hkept]
    rfl

/-- Witness for C20: Scenario A and then Scenario C loaded into a fresh session
with a container 800 pixels wide; the one chart left holds Scenario C's two
price lines and no marker. -/
theorem C20_load_full_rebuild_witness :
    (Session.initial (some 800)).wf = true ∧
    (chartReload scenarioC.candles (buildMarkers scenarioC) (buildLines scenarioC)
        (Height.css "100%")
        (chartEffect scenarioA.candles (buildMarkers scenarioA) (buildLines scenarioA)
          (Height.css "100%") (Session.initial (some 800)))).1.charts
      = [{ id := 1, width := 800, height := Height.css "100%",
           candlestickSeries :=
             [{ data := [⟨100, 1, 1, 1, 1⟩], markers := [],
                priceLines :=
                  [{ price := 90, color := "#ef5350", lineWidth := 1, lineStyle := 1,
                     axisLabelVisible := true, title := "SL" },
                   { price := 110, color := "#26a69a", lineWidth := 1, lineStyle := 1,
                     axisLabelVisible := true, title := "TP" }] }],
           lineSeries := [], fitContent := true }] ∧
    (chartReload scenarioC.candles (buildMarkers scenarioC) (buildLines scenarioC)
        (Height.css "100%")
        (chartEffect scenarioA.candles (buildMarkers scenarioA) (buildLines scenarioA)
          (Height.css "100%") (Session.initial (some 800)))).1.charts
      = [buildChart ((Session.initial (some 800)).runs + 1) 800 scenarioC.candles
          (buildMarkers scenarioC) (buildLines scenarioC) (Height.css "100%")] :=
  ⟨by decide, by decide,
   (C20_load_full_rebuild (Session.initial (some 800)) (by decide) 800 rfl
      scenarioA.candles scenarioC.candles (buildMarkers scenarioA) (buildMarkers scenarioC)
      (buildLines scenarioA) (buildLines scenarioC) (Height.css "100%")
      (Height.css "100%")).2.2.2.2.2 (fun c hc => by cases hc)⟩

/-! ## Chart session: dispose, listeners, resize, line dispatch -/

/-- After the pending cleanup (if any) of a session that owns at most the chart
and the listener of its last effect run, nothing is left. -/
theorem pending_cleanup_clears (p : Session × Option Nat) (hwf : p.1.wf = true)
    (hinv : (p.2 = none ∧ p.1.chartRef = none ∧ p.1.charts = [] ∧ p.1.listeners = []) ∨
      ∃ r c, p.2 = some r ∧ p.1.chartRef = some r ∧ p.1.charts = [c] ∧ c.id = r ∧
        p.1.listeners = [r]) :
    (match p.2 with
      | some run => chartCleanup run p.1
      | none => p.1).wf = true ∧
    (match p.2 with
      | some run => chartCleanup run p.1
      | none => p.1).chartRef = none ∧
    (match p.2 with
      | some run => chartCleanup run p.1
      | none => p.1).charts = [] ∧
    (match p.2 with
      | some run => chartCleanup run p.1
      | none => p.1).listeners = [] := by
  obtain ⟨s, q⟩ := p
  rcases hinv with ⟨h2, h3, h4, h5⟩ | ⟨r, c, h2, h3, h4, h5, h6⟩
  · simp only at h2 h3 h4 h5 hwf
    subst h2
    exact ⟨hwf, h3, h4, h5⟩
  · simp only at h2 h3 h4 h5 h6 hwf
    subst h2
    refine ⟨chartCleanup_wf r s hwf, ?_, ?_, ?_⟩
    · simp [chartCleanup, h3]
    · simp [chartCleanup, h3, h4, h5]
    · simp [chartCleanup, h3, h6]

/-- One step keeps the ownership invariant: the session owns nothing, or exactly
the chart and the resize listener of the effect run whose cleanup is pending. -/
theorem sessionStep_inv (p : Session × Option Nat) (step : SessionStep) (hwf : p.1.wf = true)
    (hinv : (p.2 = none ∧ p.1.chartRef = none ∧ p.1.charts = [] ∧ p.1.listeners = []) ∨
      ∃ r c, p.2 = some r ∧ p.1.chartRef = some r ∧ p.1.charts = [c] ∧ c.id = r ∧
        p.1.listeners = [r]) :
    (sessionStep p step).1.wf = true ∧
    (((sessionStep p step).2 = none ∧ (sessionStep p step).1.chartRef = none ∧
        (sessionStep p step).1.charts = [] ∧ (sessionStep p step).1.listeners = []) ∨
      ∃ r c, (sessionStep p step).2 = some r ∧ (sessionStep p step).1.chartRef = some r ∧
        (sessionStep p step).1.charts = [c] ∧ c.id = r ∧
        (sessionStep p step).1.listeners = [r]) := by
  obtain ⟨h1, h2, h3, h4⟩ := pending_cleanup_clears p hwf hinv
  cases step with
  | dispose =>
    exact ⟨h1, Or.inl ⟨rfl, h2, h3, h4⟩⟩
  | load data markers lines height =>
    simp only [sessionStep, chartReload]
    generalize (match p.2 with
      | some run => chartCleanup run p.1
      | none => p.1) = q at h1 h2 h3 h4
    refine ⟨chartEffect_wf _ _ _ _ _ h1, ?_⟩
    cases hc : q.container with
    | none =>
      rw [chartEffect_detached _ _ _ _ _ hc]
      exact Or.inl ⟨rfl, h2, h3, h4⟩
    | some w =>
      rw [chartEffect_attached _ _ _ _ _ w hc]
      right
      refine ⟨q.runs, buildChart q.runs w data markers lines height, rfl, rfl, ?_, ?_, ?_⟩
      · simp only [h2, h3, List.nil_append]
      · rw [buildChart_eq]
      · simp only [h4, List.nil_append]

/-- Every state a session reaches from mount satisfies the ownership invariant. -/
theorem runSession_inv (container : Option Int) (steps : List SessionStep) :
    (runSession container steps).1.wf = true ∧
    (((runSession container steps).2 = none ∧ (runSession container steps).1.chartRef = none ∧
        (runSession container steps).1.charts = [] ∧
        (runSession container steps).1.listeners = []) ∨
      ∃ r c, (runSession container steps).2 = some r ∧
        (runSession container steps).1.chartRef = some r ∧
        (runSession container steps).1.charts = [c] ∧ c.id = r ∧
        (runSession container steps).1.listeners = [r]) := by
  induction steps using List.reverseRecOn with
  | nil => exact ⟨Session.initial_wf container, Or.inl ⟨rfl, rfl, rfl, rfl⟩⟩
  | append_singleton steps step ih =>
    have h : runSession container (steps ++ [step])
        = sessionStep (runSession container steps) step := by
      simp [runSession, List.foldl_append]
    rw [h]
    exact sessionStep_inv _ step ih.1 ih.2

/-- C21: for every session state, running the cleanup twice leaves the state
that running it once leaves: the chart reference is cleared, the chart it
pointed to is released, the run's resize listener is absent; a second cleanup
(of this or of any other run) releases no chart, and the function is total, so
no call fails. -/
theorem C21_dispose_idempotent (run : Nat) (s : Session) :
    chartCleanup run (chartCleanup run s) = chartCleanup run s ∧
    (chartCleanup run s).chartRef = none ∧
    run ∉ (chartCleanup run s).listeners ∧
    (∀ k, s.chartRef = some k → ∀ c ∈ (chartCleanup run s).charts, c.id ≠ k) ∧
    (∀ run2, (chartCleanup run2 (chartCleanup run s)).charts = (chartCleanup run s).charts ∧
      (chartCleanup run2 (chartCleanup run s)).chartRef = none) := by
  cases hk : s.chartRef with
  | none =>
    refine ⟨?_, ?_, ?_, ?_, ?_⟩
    · simp [chartCleanup, hk]
    · simp [chartCleanup, hk]
    · simp [chartCleanup, hk]
    · intro k h; cases h
    · intro run2
      simp [chartCleanup, hk]
  | some k =>
    refine ⟨?_, ?_, ?_, ?_, ?_⟩
    · simp [chartCleanup, hk]
    · simp [chartCleanup, hk]
    · simp [chartCleanup, hk]
    · intro k2 h c hc
      have hk2 : k = k2 := Option.some.inj h
      subst hk2
      simp [chartCleanup, hk] at hc
      exact hc.2
    · intro run2
      simp [chartCleanup, hk]

/-- Witness for C21: the cleanup of run 0 on `loadedSession`, once and twice. -/
theorem C21_dispose_idempotent_witness :
    loadedSession.chartRef = some 0 ∧ loadedSession.listeners = [0] ∧
    (chartCleanup 0 loadedSession).charts = [] ∧
    (chartCleanup 0 loadedSession).listeners = [] ∧
    chartCleanup 0 (chartCleanup 0 loadedSession) = chartCleanup 0 loadedSession :=
  ⟨by decide, by decide, by decide, by decide, (C21_dispose_idempotent 0 loadedSession).1⟩

/-- C22: at every point of every sequence of load and dispose steps of a
session, the resize listeners registered are as many as the charts alive, at
most one; the only listener is the one of the effect run whose cleanup is
pending; and right after a dispose step there is no listener and no chart. -/
theorem C22_listeners_never_accumulate (container : Option Int) (steps : List SessionStep) :
    (runSession container steps).1.listeners.length
      = (runSession container steps).1.charts.length ∧
    (runSession container steps).1.charts.length ≤ 1 ∧
    (∀ h ∈ (runSession container steps).1.listeners,
      (runSession container steps).2 = some h) ∧
    ((runSession container (steps ++ [SessionStep.dispose])).1.listeners = [] ∧
      (runSession container (steps ++ [SessionStep.dispose])).1.charts = [] ∧
      (runSession container (steps ++ [SessionStep.dispose])).1.chartRef = none) := by
  have hd : runSession container (steps ++ [SessionStep.dispose])
      = sessionStep (runSession container steps) SessionStep.dispose := by
    simp [runSession, List.foldl_append]
  obtain ⟨hwf, hinv⟩ := runSession_inv container steps
  obtain ⟨-, h2, h3, h4⟩ := pending_cleanup_clears _ hwf hinv
  refine ⟨?_, ?_, ?_, ?_⟩
  · rcases hinv with ⟨-, -, hc, hl⟩ | ⟨r, c, -, -, hc, -, hl⟩ <;> rw [hc, hl] <;> rfl
  · rcases hinv with ⟨-, -, hc, -⟩ | ⟨r, c, -, -, hc, -, -⟩ <;> rw [hc] <;> simp
  · intro h hh
    rcases hinv with ⟨-, -, -, hl⟩ | ⟨r, c, hp, -, -, -, hl⟩
    · rw [hl] at hh; cases hh
    · rw [hl] at hh
      have : h = r := by simpa using hh
      rw [this]; exact hp
  · rw [hd]
    exact ⟨h4, h3, h2⟩

/-- Witness for C22: two loads and a dispose; one listener and one chart after
the loads, none after the dispose. -/
theorem C22_listeners_never_accumulate_witness :
    (runSession (some 800)
      [SessionStep.load scenarioA.candles [] [] (Height.px 500),
       SessionStep.load scenarioC.candles [] (buildLines scenarioC) (Height.px 500)]).1.listeners
      = [1] ∧
    (runSession (some 800)
      ([SessionStep.load scenarioA.candles [] [] (Height.px 500),
        SessionStep.load scenarioC.candles [] (buildLines scenarioC) (Height.px 500)]
        ++ [SessionStep.dispose])).1.listeners = [] :=
  ⟨by decide,
   (C22_listeners_never_accumulate (some 800)
      [SessionStep.load scenarioA.candles [] [] (Height.px 500),
       SessionStep.load scenarioC.candles [] (buildLines scenarioC) (Height.px 500)]).2.2.2.1⟩

/-- C23: for every session state the resize handler leaves the container, the
chart reference, the listeners and every chart's candlestick series and line
series as they are; only the width of the chart in use changes, to the
container's current width; and with no chart reference or no container the
handler changes nothing. -/
theorem C23_resize_changes_only_width (s : Session) :
    (handleResize s).container = s.container ∧
    (handleResize s).chartRef = s.chartRef ∧
    (handleResize s).listeners = s.listeners ∧
    (handleResize s).runs = s.runs ∧
    (handleResize s).charts.map (fun c => ({ c with width := 0 } : Chart))
      = s.charts.map (fun c => ({ c with width := 0 } : Chart)) ∧
    (∀ w k, s.container = some w → s.chartRef = some k →
      (∀ c ∈ (handleResize s).charts, c.id = k → c.width = w) ∧
      (∀ c ∈ s.charts, c.id ≠ k → c ∈ (handleResize s).charts) ∧
      (handleResize s).current = s.current.map (fun c => ({ c with width := w } : Chart))) ∧
    (s.chartRef = none ∨ s.container = none → handleResize s = s) := by
  cases hc : s.container with
  | none =>
    have h : handleResize s = s := by simp [handleResize, hc]
    rw [h]
    exact ⟨hc, rfl, rfl, rfl, rfl, fun w k hw => (by cases hw), fun _ => rfl⟩
  | some w =>
    cases hk : s.chartRef with
    | none =>
      have h : handleResize s = s := by simp [handleResize, hc, hk]
      rw [h]
      exact ⟨hc, hk, rfl, rfl, rfl, fun w k _ hk2 => (by cases hk2), fun _ => rfl⟩
    | some k =>
      have h : (handleResize s).charts
          = List.map (fun c => if c.id = k then { c with width := w } else c) s.charts := by
        simp [handleResize, hc, hk]
      have h1 : (handleResize s).container = some w := by simp [handleResize, hc, hk]
      have h2 : (handleResize s).chartRef = some k := by simp [handleResize, hc, hk]
      have h3 : (handleResize s).listeners = s.listeners := by simp [handleResize, hc, hk]
      have h4 : (handleResize s).runs = s.runs := by simp [handleResize, hc, hk]
      rw [h]
      refine ⟨h1, h2, h3, h4, ?_, ?_, ?_⟩
      · simp only [List.map_map]
        apply List.map_congr_left
        intro c _
        simp only [Function.comp_apply]
        split <;> rfl
      · intro w2 k2 hw2 hk2
        have e1 : w = w2 := Option.some.inj hw2
        have e2 : k = k2 := Option.some.inj hk2
        subst e1 e2
        refine ⟨?_, ?_, ?_⟩
        · intro c hcm hid
          simp only [List.mem_map] at hcm
          obtain ⟨c0, -, hc0⟩ := hcm
          by_cases h0 : c0.id = k
          · rw [if_pos h0] at hc0
            rw [← hc0]
          · rw [if_neg h0] at hc0
            rw [← hc0] at hid
            exact absurd hid h0
        · intro c hcm hid
          simp only [List.mem_map]
          exact ⟨c, hcm, by rw [if_neg hid]⟩
        · simp only [Session.current, h2, hk, h]
          induction s.charts with
          | nil => rfl
          | cons c cs ih =>
            by_cases h0 : c.id = k
            · simp [List.find?_cons, h0]
            · simpa [List.find?_cons, h0] using ih
      · rintro (h0 | h0) <;> cases h0

/-- Witness for C23: the window shrinks the container of `loadedSession` to 640
pixels; the handler sets the chart's width to 640 and nothing else. -/
theorem C23_resize_changes_only_width_witness :
    (handleResize { loadedSession with container := some 640 }).charts
      = loadedSession.charts.map (fun c => ({ c with width := 640 } : Chart)) ∧
    (∀ c ∈ (handleResize { loadedSession with container := some 640 }).charts,
      c.id = 0 → c.width = 640) ∧
    handleResize (chartCleanup 0 loadedSession) = chartCleanup 0 loadedSession :=
  ⟨by decide,
   ((C23_resize_changes_only_width { loadedSession with container := some 640 }).2.2.2.2.2.1
      640 0 rfl (by decide)).1,
   (C23_resize_changes_only_width (chartCleanup 0 loadedSession)).2.2.2.2.2.2
      (Or.inl (by decide))⟩

/-- C24: for every lines list the chart the effect builds has one candlestick
series whose price lines are, in order, one per price entry with that entry's
price, color and title, and line series that are, in order, one per series
entry holding that entry's points; the price lines and line series together are
as many as the entries of the lines list; and the markers are set by at most
one `setMarkers` call, which carries the whole marker list, so the series'
markers are that list. -/
theorem C24_one_rendered_line_per_entry (id : Nat) (w : Int) (data : Option (List Candle))
    (markers : List Marker) (lines : List LineOverlay) (height : Height) :
    (∃ cs, (buildChart id w data markers lines height).candlestickSeries = [cs] ∧
      cs.markers = markers ∧
      cs.priceLines.map (fun pl => (pl.price, pl.color, pl.title))
        = lines.filterMap (fun l => match l with
            | LineOverlay.price p c t => some (p, c, t)
            | LineOverlay.series _ _ => none) ∧
      cs.priceLines.length + (buildChart id w data markers lines height).lineSeries.length
        = lines.length) ∧
    (buildChart id w data markers lines height).lineSeries.map LineSeries.data
      = lines.filterMap (fun l => match l with
          | LineOverlay.series d _ => some d
          | LineOverlay.price _ _ _ => none) ∧
    (lines.countP LineOverlay.isPrice + lines.countP LineOverlay.isSeries = lines.length) ∧
    ((∀ calls ∈ setMarkersCalls markers, calls = markers) ∧
      (setMarkersCalls markers).length ≤ 1 ∧
      (markers ≠ [] → setMarkersCalls markers = [markers])) := by
  have hprice : ∀ ls : List LineOverlay,
      (ls.filterMap LineOverlay.priceLine?).map (fun pl => (pl.price, pl.color, pl.title))
        = ls.filterMap (fun l => match l with
            | LineOverlay.price p c t => some (p, c, t)
            | LineOverlay.series _ _ => none) := by
    intro ls
    induction ls with
    | nil => rfl
    | cons l ls ih =>
      cases l with
      | price p c t => simpa [List.filterMap_cons, LineOverlay.priceLine?] using ih
      | series d c => simpa [List.filterMap_cons, LineOverlay.priceLine?] using ih
  have hseries : ∀ ls : List LineOverlay,
      (ls.filterMap LineOverlay.lineSeries?).map LineSeries.data
        = ls.filterMap (fun l => match l with
            | LineOverlay.series d _ => some d
            | LineOverlay.price _ _ _ => none) := by
    intro ls
    induction ls with
    | nil => rfl
    | cons l ls ih =>
      cases l with
      | price p c t => simpa [List.filterMap_cons, LineOverlay.lineSeries?] using ih
      | series d c => simpa [List.filterMap_cons, LineOverlay.lineSeries?] using ih
  have hcount : ∀ ls : List LineOverlay,
      ls.countP LineOverlay.isPrice + ls.countP LineOverlay.isSeries = ls.length := by
    intro ls
    induction ls with
    | nil => rfl
    | cons l ls ih =>
      cases l with
      | price p c t =>
        simp [List.countP_cons, LineOverlay.isPrice, LineOverlay.isSeries]
        omega
      | series d c =>
        simp [List.countP_cons, LineOverlay.isPrice, LineOverlay.isSeries]
        omega
  rw [buildChart_eq]
  refine ⟨⟨_, rfl, rfl, hprice lines, rendered_count lines⟩, hseries lines, hcount lines, ?_⟩
  unfold setMarkersCalls
  cases markers with
  | nil => simp
  | cons m ms => simp

/-- Witness for C24: Scenario C's two price lines and `trailTrade`'s series line
rendered together. -/
theorem C24_one_rendered_line_per_entry_witness :
    (buildChart 0 800 scenarioC.candles [] (buildLines scenarioC ++ buildLines trailTrade)
        (Height.px 500)).lineSeries.map LineSeries.data
      = [[⟨100, 95⟩, ⟨160, 96⟩]] ∧
    (buildChart 0 800 scenarioC.candles [] (buildLines scenarioC ++ buildLines trailTrade)
        (Height.px 500)).lineSeries.map LineSeries.data
      = (buildLines scenarioC ++ buildLines trailTrade).filterMap (fun l => match l with
          | LineOverlay.series d _ => some d
          | LineOverlay.price _ _ _ => none) :=
  ⟨by decide,
   (C24_one_rendered_line_per_entry 0 800 scenarioC.candles []
      (buildLines scenarioC ++ buildLines trailTrade) (Height.px 500)).2.1⟩

/-! ## Tolerance, overlapping cycles, status badge -/

/-- C25, as stated, fails: a tolerance handed to the aligner is not used. With
one candle at time 100, the call for timestamp 200 and tolerance 50 returns that
candle, 100 seconds away; the call for timestamp 600 and tolerance 1000 returns
nothing although the candle is within 1000 seconds. -/
theorem C25_counterexample_tolerance_ignored :
    alignWithTolerance (some [⟨100, 1, 1, 1, 1⟩]) 200 50 = some ⟨100, 1, 1, 1, 1⟩ ∧
    (50 : Int) < |(⟨100, 1, 1, 1, 1⟩ : Candle).time - 200| ∧
    alignWithTolerance (some [⟨100, 1, 1, 1, 1⟩]) 600 1000 = none ∧
    |(⟨100, 1, 1, 1, 1⟩ : Candle).time - 600| ≤ (1000 : Int) := by
  refine ⟨by decide, by decide, by decide, by decide⟩

/-- C25, amended: the tolerance of the aligner is the constant 300: whatever
third argument is passed, the call returns what `findClosestCandle` returns,
which is nothing exactly when every candle is farther than 300 seconds from the
timestamp, and otherwise a candle within 300 seconds of it. -/
theorem C25_fixed_tolerance (C : Option (List Candle)) (ts t : Int) :
    alignWithTolerance C ts t = findClosestCandle C ts ∧
    (alignWithTolerance C ts t = none ↔
      ∀ cs, C = some cs → ∀ c ∈ cs, 300 < |c.time - ts|) ∧
    (∀ c, alignWithTolerance C ts t = some c →
      (∃ cs, C = some cs ∧ c ∈ cs) ∧ |c.time - ts| ≤ 300) := by
  refine ⟨rfl, ?_, ?_⟩
  · unfold alignWithTolerance
    cases C with
    | none => simp [findClosestCandle]
    | some cs =>
      rw [findClosestCandle_eq_none_iff]
      constructor
      · intro h cs2 hcs c hc
        cases hcs
        rw [abs_sub_eq_natAbs]
        exact_mod_cast h c hc
      · intro h x hx
        have := h cs rfl x hx
        rw [abs_sub_eq_natAbs] at this
        exact_mod_cast this
  · intro c h
    unfold alignWithTolerance at h
    refine ⟨findClosestCandle_mem C ts c h, ?_⟩
    cases C with
    | none => simp [findClosestCandle] at h
    | some cs =>
      obtain ⟨pre, post, -, h300, -, -⟩ := findClosestCandle_some_imp cs ts c h
      rw [abs_sub_eq_natAbs]
      exact_mod_cast h300

/-- Witness for C25: tolerance 50 and tolerance 1000 give the same answer. -/
theorem C25_fixed_tolerance_witness :
    alignWithTolerance (some [⟨100, 1, 1, 1, 1⟩]) 200 50 = some ⟨100, 1, 1, 1, 1⟩ ∧
    |(⟨100, 1, 1, 1, 1⟩ : Candle).time - 200| ≤ (300 : Int) :=
  ⟨by decide,
   ((C25_fixed_tolerance (some [⟨100, 1, 1, 1, 1⟩]) 200 50).2.2 ⟨100, 1, 1, 1, 1⟩
      (by decide)).2⟩

/-- C26, as stated, fails: cycle A (live, fetch rejected with `down`) settles
first and cycle B (live, one candle fetched) settles last; the final state holds
B's chart data together with A's error, whereas cycle B on its own ends without
error. -/
theorem C26_counterexample_stale_error :
    overlappingLoads
        (loadBody "AAA" "live" none (Fetched.rejected "down") (Fetched.rejected ""))
        (loadBody "BBB" "live" none
          (Fetched.resolved { error := none, candles := some [⟨100, 1, 1, 1, 1⟩] })
          (Fetched.rejected ""))
        initialState
      = { loading := false, error := some "down",
          chartData := { candles := some [⟨100, 1, 1, 1, 1⟩], markers := [], lines := [] } } ∧
    loadData "BBB" "live" none
        (Fetched.resolved { error := none, candles := some [⟨100, 1, 1, 1, 1⟩] })
        (Fetched.rejected "") initialState
      = { loading := false, error := none,
          chartData := { candles := some [⟨100, 1, 1, 1, 1⟩], markers := [], lines := [] } } := by
  refine ⟨by decide, by decide⟩

/-- C26, amended: after two overlapping load cycles the state has
`loading = false`; the chart data is that of the cycle that settled last if it
set one, else that of the cycle that settled first if it set one, else
unchanged; the error is that of the cycle that settled last if it failed, else
that of the cycle that settled first if it failed (a later success does not
clear it), else unset. When both cycles set chart data, or both fail, the final
state is the one the last-settled cycle produces on its own. -/
theorem C26_overlapping_loads (first second : Except String (Option ChartData))
    (st : ModalState) :
    (overlappingLoads first second st).loading = false ∧
    (overlappingLoads first second st).chartData =
      (match second with
        | Except.ok (some cd) => cd
        | _ =>
          match first with
          | Except.ok (some cd) => cd
          | _ => st.chartData) ∧
    (overlappingLoads first second st).error =
      (match second with
        | Except.error msg => some msg
        | _ =>
          match first with
          | Except.error msg => some msg
          | _ => none) ∧
    ((∃ a b, first = Except.ok (some a) ∧ second = Except.ok (some b)) →
      overlappingLoads first second st = loadSettle second (loadBegin st)) ∧
    ((∃ a b, first = Except.error a ∧ second = Except.error b) →
      overlappingLoads first second st = loadSettle second (loadBegin st)) ∧
    (∀ (symbol mode : String) (tradeData : Option Trade) (live : Fetched LiveChart)
        (allData : Fetched (Option (List Trade))),
      loadSettle (loadBody symbol mode tradeData live allData) (loadBegin st)
        = loadData symbol mode tradeData live allData st) := by
  refine ⟨?_, ?_, ?_, ?_, ?_, ?_⟩
  · rfl
  · rcases first with m1 | _ | c1 <;> rcases second with m2 | _ | c2 <;> rfl
  · rcases first with m1 | _ | c1 <;> rcases second with m2 | _ | c2 <;> rfl
  · rintro ⟨a, b, rfl, rfl⟩
    rfl
  · rintro ⟨a, b, rfl, rfl⟩
    rfl
  · intro symbol mode tradeData live allData
    rfl

/-- Witness for C26: two live cycles that both fetch candles; the one settling
last decides the final state. -/
theorem C26_overlapping_loads_witness :
    overlappingLoads
        (Except.ok (some { candles := some [⟨100, 1, 1, 1, 1⟩], markers := [], lines := [] }))
        (Except.ok (some { candles := some [⟨200, 2, 2, 2, 2⟩], markers := [], lines := [] }))
        initialState
      = loadSettle
          (Except.ok (some { candles := some [⟨200, 2, 2, 2, 2⟩], markers := [], lines := [] }))
          (loadBegin initialState) :=
  (C26_overlapping_loads _ _ initialState).2.2.2.1 ⟨_, _, rfl, rfl⟩

/-- C27: what the code does. Without a (non-empty) label the class is detected
from the upper-cased status, whatever `type` is; with a label and no `type` the
class is `status-info` for every status, so the detection asked for by the claim
(and by the comment in the code) does not happen. -/
theorem C27_label_disables_autodetect (toUpperCase : String → String) (status : String) :
    (∀ label : String, label ≠ "" →
      statusBadgeClass toUpperCase status none (some label) = "status-info") ∧
    (∀ (type : Option String) (label : Option String), label = none ∨ label = some "" →
      statusBadgeClass toUpperCase status type label =
        if toUpperCase status ∈ ["PROFIT", "WIN", "ONLINE", "ACTIVE", "FILLED", "COMPLETE"]
        then "status-success"
        else if toUpperCase status ∈ ["LOSS", "OFFLINE", "ERROR", "FAILED", "REJECTED"]
        then "status-danger"
        else if toUpperCase status ∈ ["PENDING", "WARNING", "CONNECTING", "OPEN"]
        then "status-warning"
        else "status-info") := by
  refine ⟨?_, ?_⟩
  · intro label hl
    simp [statusBadgeClass, truthyStr, hl]
  · intro type label hl
    rcases hl with rfl | rfl <;> simp [statusBadgeClass, truthyStr]

/-- Witness for C27: the badge of `DashboardPage`, status `ONLINE` with a label
and no type, gets `status-info`; the same status without a label gets
`status-success`. -/
theorem C27_label_disables_autodetect_witness :
    statusBadgeClass (fun s => s) "ONLINE" none (some "Execution Engine: Active")
      = "status-info" ∧
    statusBadgeClass (fun s => s) "ONLINE" none none = "status-success" :=
  ⟨(C27_label_disables_autodetect (fun s => s) "ONLINE").1 "Execution Engine: Active"
      (by decide),
   by decide⟩

/-- In a list with strictly ascending times, two candles at the least distance
from a timestamp sit next to each other. -/
theorem ties_adjacent (cs : List Candle) (ts : Int)
    (hsorted : cs.Pairwise (fun a b => a.time < b.time))
    (i j : Nat) (a b : Candle) (hij : i < j) (ha : cs[i]? = some a) (hb : cs[j]? = some b)
    (hmina : ∀ d ∈ cs, (a.time - ts).natAbs ≤ (d.time - ts).natAbs)
    (hminb : ∀ d ∈ cs, (b.time - ts).natAbs ≤ (d.time - ts).natAbs) :
    j = i + 1 ∧ a.time < b.time := by
  rw [List.pairwise_iff_getElem] at hsorted
  obtain ⟨hi, hai⟩ := List.getElem?_eq_some_iff.1 ha
  obtain ⟨hj, hbj⟩ := List.getElem?_eq_some_iff.1 hb
  have hab : a.time < b.time := by
    have := hsorted i j hi hj hij
    rw [hai, hbj] at this
    exact this
  refine ⟨?_, hab⟩
  by_contra hne
  have hk : i + 1 < j := by omega
  have hklen : i + 1 < cs.length := by omega
  have h1 := hsorted i (i + 1) hi hklen (by omega)
  have h2 := hsorted (i + 1) j hklen hj hk
  rw [hai] at h1
  rw [hbj] at h2
  have hmem : cs[i + 1] ∈ cs := List.getElem_mem _
  have h3 := hmina _ hmem
  have h4 := hminb _ hmem
  omega

/-- With strictly ascending times, when two candles tie at the least distance
and that distance is within the tolerance, the aligner returns the earlier one. -/
theorem first_of_tie (cs : List Candle) (ts : Int)
    (hsorted : cs.Pairwise (fun a b => a.time < b.time))
    (i j : Nat) (a b : Candle) (hij : i < j) (ha : cs[i]? = some a) (hb : cs[j]? = some b)
    (hmina : ∀ d ∈ cs, (a.time - ts).natAbs ≤ (d.time - ts).natAbs)
    (hminb : ∀ d ∈ cs, (b.time - ts).natAbs ≤ (d.time - ts).natAbs)
    (h300 : (a.time - ts).natAbs ≤ 300) :
    findClosestCandle (some cs) ts = some a := by
  have hamem : a ∈ cs := List.getElem?_mem ha
  cases hres : findClosestCandle (some cs) ts with
  | none =>
    have := (findClosestCandle_eq_none_iff cs ts).1 hres a hamem
    omega
  | some c =>
    obtain ⟨pre, post, hl, -, hpre, hpost⟩ := findClosestCandle_some_imp cs ts c hres
    have hcmem : c ∈ cs := by rw [hl]; simp
    have hcp : cs[pre.length]? = some c := by
      rw [hl, List.getElem?_append_right (le_refl _)]; simp
    have hminc : ∀ d ∈ cs, (c.time - ts).natAbs ≤ (d.time - ts).natAbs := by
      intro d hd
      have h1 := hmina c hcmem
      have h2 := hmina d hd
      have h3 : (c.time - ts).natAbs ≤ (a.time - ts).natAbs := by
        rw [hl] at hamem
        rcases List.mem_append.1 hamem with hx | hx
        · exact le_of_lt (hpre a hx)
        · rcases List.mem_cons.1 hx with hx | hx
          · rw [hx]
          · exact hpost a hx
      omega
    rcases Nat.lt_trichotomy pre.length i with hlt | heq | hgt
    · have e1 := (ties_adjacent cs ts hsorted pre.length i c a hlt hcp ha hminc hmina).1
      have e2 := (ties_adjacent cs ts hsorted i j a b hij ha hb hmina hminb).1
      have e3 := (ties_adjacent cs ts hsorted pre.length j c b (by omega) hcp hb hminc hminb).1
      omega
    · rw [heq, ha] at hcp
      exact hcp.symm ▸ rfl
    · have hapre : a ∈ pre := by
        have : (pre ++ c :: post)[i]? = some a := by rw [← hl]; exact ha
        rw [List.getElem?_append_left hgt] at this
        exact List.getElem?_mem this
      have h1 := hpre a hapre
      have h2 := hmina c hcmem
      omega

/-- C28, as stated, fails: candles at times 0 and 1000 are strictly ascending
and tie at distance 500 from timestamp 500, yet `findClosestCandle` returns
nothing (the distance exceeds the tolerance), not the earlier-timed candle. -/
theorem C28_counterexample_tie_out_of_tolerance :
    List.Pairwise (fun a b : Candle => a.time < b.time)
      [⟨0, 1, 1, 1, 1⟩, ⟨1000, 1, 1, 1, 1⟩] ∧
    |(⟨0, 1, 1, 1, 1⟩ : Candle).time - 500| = 500 ∧
    |(⟨1000, 1, 1, 1, 1⟩ : Candle).time - 500| = 500 ∧
    findClosestCandle (some [⟨0, 1, 1, 1, 1⟩, ⟨1000, 1, 1, 1, 1⟩]) 500 = none := by
  refine ⟨by simp, by decide, by decide, by decide⟩

/-- C28, amended: in a candle sequence with strictly ascending times, two
candles that both attain the minimum distance to the timestamp occupy
consecutive positions, no three candles attain it, and `findClosestCandle`
returns the earlier-timed of the two when that distance is at most 300, and
nothing when it is more. -/
theorem C28_ties_only_between_neighbours (cs : List Candle) (ts : Int)
    (hsorted : cs.Pairwise (fun a b => a.time < b.time)) :
    (∀ (i j : Nat) (a b : Candle), i < j → cs[i]? = some a → cs[j]? = some b →
      (∀ d ∈ cs, |a.time - ts| ≤ |d.time - ts|) →
      (∀ d ∈ cs, |b.time - ts| ≤ |d.time - ts|) →
      j = i + 1 ∧ a.time < b.time ∧
      (|a.time - ts| ≤ 300 → findClosestCandle (some cs) ts = some a) ∧
      (300 < |a.time - ts| → findClosestCandle (some cs) ts = none)) ∧
    (∀ (i j k : Nat) (a b c : Candle), i < j → j < k →
      cs[i]? = some a → cs[j]? = some b → cs[k]? = some c →
      ¬ ((∀ d ∈ cs, |a.time - ts| ≤ |d.time - ts|) ∧
         (∀ d ∈ cs, |b.time - ts| ≤ |d.time - ts|) ∧
         (∀ d ∈ cs, |c.time - ts| ≤ |d.time - ts|))) := by
  have hconv : ∀ x : Candle, (∀ d ∈ cs, |x.time - ts| ≤ |d.time - ts|) →
      ∀ d ∈ cs, (x.time - ts).natAbs ≤ (d.time - ts).natAbs := by
    intro x h d hd
    have := h d hd
    rw [abs_sub_eq_natAbs, abs_sub_eq_natAbs] at this
    exact_mod_cast this
  refine ⟨?_, ?_⟩
  · intro i j a b hij ha hb hmina hminb
    have hadj := ties_adjacent cs ts hsorted i j a b hij ha hb (hconv a hmina) (hconv b hminb)
    refine ⟨hadj.1, hadj.2, ?_, ?_⟩
    · intro h300
      rw [abs_sub_eq_natAbs] at h300
      exact first_of_tie cs ts hsorted i j a b hij ha hb (hconv a hmina) (hconv b hminb)
        (by exact_mod_cast h300)
    · intro h300
      rw [abs_sub_eq_natAbs] at h300
      have h300n : 300 < (a.time - ts).natAbs := by exact_mod_cast h300
      rw [findClosestCandle_eq_none_iff]
      intro x hx
      exact lt_of_lt_of_le h300n (hconv a hmina x hx)
  · intro i j k a b c hij hjk ha hb hc ⟨hmina, hminb, hminc⟩
    have e1 := (ties_adjacent cs ts hsorted i j a b hij ha hb (hconv a hmina) (hconv b hminb)).1
    have e2 := (ties_adjacent cs ts hsorted i k a c (by omega) ha hc (hconv a hmina)
      (hconv c hminc)).1
    omega

/-- Witness for C28: candles at 90 and 110 tie at distance 10 from timestamp
100; they are neighbours and the earlier one is returned. -/
theorem C28_ties_only_between_neighbours_witness :
    List.Pairwise (fun a b : Candle => a.time < b.time)
      [⟨0, 1, 1, 1, 1⟩, ⟨90, 1, 1, 1, 1⟩, ⟨110, 1, 1, 1, 1⟩] ∧
    findClosestCandle (some [⟨0, 1, 1, 1, 1⟩, ⟨90, 1, 1, 1, 1⟩, ⟨110, 1, 1, 1, 1⟩]) 100
      = some ⟨90, 1, 1, 1, 1⟩ ∧
    (2 = 1 + 1 ∧ (⟨90, 1, 1, 1, 1⟩ : Candle).time < (⟨110, 1, 1, 1, 1⟩ : Candle).time ∧
      (|(⟨90, 1, 1, 1, 1⟩ : Candle).time - 100| ≤ 300 →
        findClosestCandle (some [⟨0, 1, 1, 1, 1⟩, ⟨90, 1, 1, 1, 1⟩, ⟨110, 1, 1, 1, 1⟩]) 100
          = some ⟨90, 1, 1, 1, 1⟩) ∧
      (300 < |(⟨90, 1, 1, 1, 1⟩ : Candle).time - 100| →
        findClosestCandle (some [⟨0, 1, 1, 1, 1⟩, ⟨90, 1, 1, 1, 1⟩, ⟨110, 1, 1, 1, 1⟩]) 100
          = none)) :=
  ⟨by simp, by decide,
   (C28_ties_only_between_neighbours
      [⟨0, 1, 1, 1, 1⟩, ⟨90, 1, 1, 1, 1⟩, ⟨110, 1, 1, 1, 1⟩] 100 (by simp)).1
      1 2 ⟨90, 1, 1, 1, 1⟩ ⟨110, 1, 1, 1, 1⟩ (by decide) rfl rfl (by decide) (by decide)⟩

/-! ## Other modes; the chart button of the backtest page -/

/-- C29: for every mode other than `live` and `backtest` a load cycle makes no
API call (its result does not depend on what the calls would have returned),
sets no error, leaves the chart data as it was and ends with `loading = false`,
so the modal renders the chart with the previous chart data, the empty chart on
a fresh modal. -/
theorem C29_other_mode_changes_nothing (symbol mode : String) (tradeData : Option Trade)
    (live : Fetched LiveChart) (allData : Fetched (Option (List Trade))) (st : ModalState)
    (h1 : mode ≠ "live") (h2 : mode ≠ "backtest") :
    apiCalls symbol mode tradeData = [] ∧
    loadData symbol mode tradeData live allData st =
      { loading := false, error := none, chartData := st.chartData } ∧
    (∀ (live2 : Fetched LiveChart) (allData2 : Fetched (Option (List Trade))),
      loadData symbol mode tradeData live2 allData2 st
        = loadData symbol mode tradeData live allData st) ∧
    rendersChart (loadData symbol mode tradeData live allData st) = true ∧
    (loadData symbol mode tradeData live allData initialState).chartData
      = { candles := some [], markers := [], lines := [] } := by
  have hload : ∀ (l : Fetched LiveChart) (a : Fetched (Option (List Trade))) (s : ModalState),
      loadData symbol mode tradeData l a s =
        { loading := false, error := none, chartData := s.chartData } := by
    intro l a s
    rw [loadData_eq, loadBody_other symbol mode tradeData l a h1 h2]
  refine ⟨?_, hload live allData st, ?_, ?_, ?_⟩
  · simp [apiCalls, h1, h2]
  · intro live2 allData2
    rw [hload, hload]
  · rw [hload]
    rfl
  · rw [hload]
    rfl

/-- Witness for C29: mode `paper` on a modal that shows Scenario A. -/
theorem C29_other_mode_changes_nothing_witness :
    loadData "ABC" "paper" none (Fetched.rejected "down") (Fetched.rejected "down")
        { loading := false, error := none, chartData := buildChartData scenarioA } =
      { loading := false, error := none, chartData := buildChartData scenarioA } :=
  (C29_other_mode_changes_nothing "ABC" "paper" none (Fetched.rejected "down")
    (Fetched.rejected "down")
    { loading := false, error := none, chartData := buildChartData scenarioA }
    (by decide) (by decide)).2.1

/-- The element `find?` returns is the one of least index that passes the test. -/
theorem find?_least {α : Type} (p : α → Bool) (l : List α) (x : α) (hx : x ∈ l)
    (hp : p x = true) :
    ∃ t i, l.find? p = some t ∧ l[i]? = some t ∧ p t = true ∧
      ∀ (j : Nat) (u : α), j < i → l[j]? = some u → p u = false := by
  induction l with
  | nil => cases hx
  | cons a as ih =>
    by_cases ha : p a = true
    · refine ⟨a, 0, by simp [List.find?_cons, ha], by simp, ha, ?_⟩
      intro j u hj
      omega
    · have hx2 : x ∈ as := by
        rcases List.mem_cons.1 hx with h | h
        · rw [h] at hp; exact absurd hp ha
        · exact h
      obtain ⟨t, i, hf, hi, hpt, hmin⟩ := ih hx2
      refine ⟨t, i + 1, by simp [List.find?_cons, ha, hf], by simpa using hi, hpt, ?_⟩
      intro j u hj hu
      cases j with
      | zero =>
        have : a = u := by simpa using hu
        rw [← this]
        simpa using ha
      | succ k => exact hmin k u (by omega) (by simpa using hu)

/-- C30: for every trade list and every row `r` of it whose key (`Stock`, or
`Symbol` when `Stock` is empty) is a non-empty string, clicking `r`'s chart
button renders the chart modal in backtest mode for that key with `tradeData`
the row of least index whose key equals `r`'s key; `tradeData` is never absent,
so the modal's condition for fetching the trade list is false; and it is `r`
itself when no earlier row has `r`'s key. -/
theorem C30_chart_button_trade_data (trades : List TradeRow) (selected : Option String)
    (r : TradeRow) (key : String) (hr : r ∈ trades) (hkey : rowKey r = some key)
    (hne : key ≠ "") :
    ∃ props t i,
      chartModal (clickChart r { trades := trades, selectedSymbol := selected }) = some props ∧
      props.symbol = key ∧ props.mode = "backtest" ∧ props.tradeData = some t ∧
      trades[i]? = some t ∧ rowKey t = some key ∧
      (∀ (j : Nat) (u : TradeRow), j < i → trades[j]? = some u → rowKey u ≠ some key) ∧
      (∀ view : TradeRow → Trade,
        fetchesBacktestChart props.symbol (props.tradeData.map view) = false) ∧
      (∀ k : Nat, trades[k]? = some r →
        (∀ (j : Nat) (u : TradeRow), j < k → trades[j]? = some u → rowKey u ≠ rowKey r) →
        t = r) := by
  obtain ⟨t, i, hf, hi, hpt, hmin⟩ :=
    find?_least (fun t : TradeRow => decide (rowKey t = some key)) trades r hr (by simpa using hkey)
  have hkt : rowKey t = some key := by simpa using hpt
  refine ⟨{ symbol := key, mode := "backtest", tradeData := some t }, t, i, ?_, rfl, rfl, rfl,
    hi, hkt, ?_, ?_, ?_⟩
  · simp [chartModal, clickChart, hkey, truthyStr, hne, hf]
  · intro j u hj hu
    have := hmin j u hj hu
    simpa using this
  · intro view
    rfl
  · intro k hk hearlier
    rcases Nat.lt_trichotomy i k with hlt | heq | hgt
    · exact absurd (hkt.trans hkey.symm) (hearlier i t hlt hi)
    · rw [heq, hk] at hi
      exact (Option.some.inj hi).symm
    · have := hmin k r hgt hk
      simp [hkey] at this

/-- Witness for C30: in `sampleRows` the rows 1 and 2 share the key `INFY`;
clicking the chart button of row 2 passes row 1 as `tradeData`. -/
theorem C30_chart_button_trade_data_witness :
    rowKey { Stock := some "INFY", Symbol := none, Date := some "2024-01-04" } = some "INFY" ∧
    chartModal (clickChart { Stock := some "INFY", Symbol := none, Date := some "2024-01-04" }
        { trades := sampleRows, selectedSymbol := none })
      = some { symbol := "INFY", mode := "backtest",
               tradeData := some { Stock := some "", Symbol := some "INFY",
                                   Date := some "2024-01-03" } } ∧
    (∃ props t i,
      chartModal (clickChart { Stock := some "INFY", Symbol := none, Date := some "2024-01-04" }
        { trades := sampleRows, selectedSymbol := none }) = some props ∧
      props.symbol = "INFY" ∧ props.mode = "backtest" ∧ props.tradeData = some t ∧
      sampleRows[i]? = some t ∧ rowKey t = some "INFY" ∧
      (∀ (j : Nat) (u : TradeRow), j < i → sampleRows[j]? = some u → rowKey u ≠ some "INFY") ∧
      (∀ view : TradeRow → Trade,
        fetchesBacktestChart props.symbol (props.tradeData.map view) = false) ∧
      (∀ k : Nat,
        sampleRows[k]? = some { Stock := some "INFY", Symbol := none, Date := some "2024-01-04" } →
        (∀ (j : Nat) (u : TradeRow), j < k → sampleRows[j]? = some u →
          rowKey u ≠ rowKey { Stock := some "INFY", Symbol := none, Date := some "2024-01-04" }) →
        t = { Stock := some "INFY", Symbol := none, Date := some "2024-01-04" })) :=
  ⟨by decide, by decide,
   C30_chart_button_trade_data sampleRows none
     { Stock := some "INFY", Symbol := none, Date := some "2024-01-04" } "INFY"
     (by decide) (by decide) (by decide)⟩

end Pulse915
